import Mathlib

/-!
Verification of the galaxy service registry and service runtime against
their natural-language specification.

The Go sources are shallowly embedded: the pluggable Redis backend becomes
an explicit state value (hashes, sets, ttls) threaded through every
operation, the Docker engine becomes an explicit container/image state,
and every fallible operation returns `Except`/`Option` or a success flag,
mirroring the `(value, error)` pairs of the source.  Definitions marked
`Modelled from the spec:` embed repository code that is referenced by the
sources in scope (config persistence, container naming, image-name
splitting) but whose defining file is not part of the source set; they
follow the specification text.
-/

set_option maxHeartbeats 1000000

namespace Galaxy

/-! ### Path and glob utilities (Go `path.Join`, Redis `KEYS` glob) -/

/-- Join path components with a slash.  Mirrors Go `path.Join` on the
clean, dot-free component lists used by the registry. -/
def joinSlash : List String → String
  | [] => ""
  | [p] => p
  | p :: ps => p ++ "/" ++ joinSlash ps

/-- Go `path.Join`: empty components are dropped before joining. -/
def pathJoin (parts : List String) : String :=
  joinSlash (parts.filter (fun p => p != ""))

/-- Helper for `globMatch`: try the continuation `f` on every suffix of
the string, as a `*` wildcard does. -/
def globStar (f : List Char → Bool) : List Char → Bool
  | [] => f []
  | c :: s => f (c :: s) || globStar f s

/-- Redis `KEYS`-style glob matching restricted to the literal characters
and `*` wildcards that the registry's key patterns use.  A `*` matches any
character sequence, slashes included, as Redis keys have no separator
structure. -/
def globMatch : List Char → List Char → Bool
  | [], s => s.isEmpty
  | p :: ps, s =>
    if p = '*' then globStar (globMatch ps) s
    else
      match s with
      | [] => false
      | c :: s' => p == c && globMatch ps s'

def globMatchStr (pattern s : String) : Bool :=
  globMatch pattern.data s.data

/-- Split a character list at a separator, Go `strings.Split` style. -/
def splitCharAux (sep : Char) : List Char → List Char → List String
  | [], acc => [String.mk acc.reverse]
  | c :: cs, acc =>
    if c = sep then String.mk acc.reverse :: splitCharAux sep cs []
    else splitCharAux sep cs (c :: acc)

/-- Go `strings.Split(s, sep)` for a one-character separator. -/
def splitChar (s : String) (sep : Char) : List String :=
  splitCharAux sep s.data []

def digitVal (c : Char) : Option Nat :=
  if '0' ≤ c ∧ c ≤ '9' then some (c.toNat - '0'.toNat) else none

def parseNatAux : List Char → Nat → Option Nat
  | [], acc => some acc
  | c :: cs, acc =>
    match digitVal c with
    | some d => parseNatAux cs (acc * 10 + d)
    | none => none

/-- Parse a non-empty all-digit string, Go `strconv` style. -/
def parseNat (s : String) : Option Nat :=
  match s.data with
  | [] => none
  | _ => parseNatAux s.data 0

/-- Parse an optionally negated decimal integer, Go `strconv` style. -/
def parseInt (s : String) : Option Int :=
  match s.data with
  | '-' :: rest =>
    match rest with
    | [] => none
    | _ => (parseNatAux rest 0).map (fun n => -(n : Int))
  | _ => (parseNat s).map (fun n => (n : Int))

/-- Split a character list at the first occurrence of a separator,
returning the prefix and, when the separator occurs, the remainder. -/
def breakAtChar (sep : Char) : List Char → List Char × Option (List Char)
  | [] => ([], none)
  | c :: cs =>
    if c = sep then ([], some cs)
    else
      ((c :: (breakAtChar sep cs).1), (breakAtChar sep cs).2)

/-- Go `strings.TrimPrefix(s, "/")`. -/
def chopSlash (s : String) : String :=
  match s.data with
  | '/' :: rest => String.mk rest
  | _ => s

/-! ### JSON values for registration records and stored fields

Registration records are serialized JSON objects; every field of a
`ServiceRegistration` is a string, an integer timestamp, a string array or
a string-to-string map, so object fields are drawn from `Jprim`. -/

inductive Jprim where
  | str (s : String)
  | num (n : Int)
  | arr (xs : List String)
  | smap (m : List (String × String))
deriving DecidableEq

abbrev Jobj := List (String × Jprim)

/-- A value stored in the backend: either a primitive (the string fields
of config hashes) or a serialized JSON object (registration records). -/
inductive Jval where
  | prim (p : Jprim)
  | obj (o : Jobj)
deriving DecidableEq

/-! ### The backend contract (spec section 6)

Key/field storage with expiring keys, glob key enumeration and set
membership, embedded as an explicit state value. -/

structure Backend where
  hashes : List (String × List (String × Jval))
  sets : List (String × List String)
  ttls : List (String × Nat)
deriving DecidableEq

/-- Overwrite-or-append update of an association list. -/
def assocPut {β : Type} : List (String × β) → String → β → List (String × β)
  | [], k, v => [(k, v)]
  | (k', v') :: rest, k, v =>
    if k' == k then (k, v) :: rest else (k', v') :: assocPut rest k v

def Backend.hget (b : Backend) (key field : String) : Option Jval :=
  match b.hashes.lookup key with
  | none => none
  | some fields => fields.lookup field

def hsetGo : List (String × List (String × Jval)) → String → String → Jval →
    List (String × List (String × Jval))
  | [], key, field, v => [(key, [(field, v)])]
  | (k, fs) :: rest, key, field, v =>
    if k == key then (k, assocPut fs field v) :: rest
    else (k, fs) :: hsetGo rest key field v

def Backend.hset (b : Backend) (key field : String) (v : Jval) : Backend :=
  { b with hashes := hsetGo b.hashes key field v }

def Backend.del (b : Backend) (key : String) : Backend :=
  { b with hashes := b.hashes.filter (fun kv => kv.1 != key),
           sets := b.sets.filter (fun kv => kv.1 != key) }

def Backend.expire (b : Backend) (key : String) (ttl : Nat) : Backend :=
  { b with ttls := assocPut b.ttls key ttl }

/-- Backend `Members`: contents of the set at `key`, empty when absent. -/
def Backend.members (b : Backend) (key : String) : List String :=
  (b.sets.lookup key).getD []

/-- Backend `AddMember` (Redis `SADD`): returns how many members were
added (1 when the value was new, 0 when already present). -/
def saddGo : List (String × List String) → String → String →
    Nat × List (String × List String)
  | [], key, v => (1, [(key, [v])])
  | (k, ms) :: rest, key, v =>
    if k == key then
      if v ∈ ms then (0, (k, ms) :: rest)
      else (1, (k, ms ++ [v]) :: rest)
    else
      ((saddGo rest key v).1, (k, ms) :: (saddGo rest key v).2)

def Backend.addMember (b : Backend) (key v : String) : Nat × Backend :=
  let (n, sets') := saddGo b.sets key v
  (n, { b with sets := sets' })

/-- Backend `RemoveMember` (Redis `SREM`): returns how many members were
removed (1 when present, 0 otherwise). -/
def sremGo : List (String × List String) → String → String →
    Nat × List (String × List String)
  | [], _, _ => (0, [])
  | (k, ms) :: rest, key, v =>
    if k == key then
      if v ∈ ms then (1, (k, ms.erase v) :: rest)
      else (0, (k, ms) :: rest)
    else
      ((sremGo rest key v).1, (k, ms) :: (sremGo rest key v).2)

def Backend.removeMember (b : Backend) (key v : String) : Nat × Backend :=
  let (n, sets') := sremGo b.sets key v
  (n, { b with sets := sets' })

/-- All keys of the backend, hash keys first.  Redis `KEYS` enumerates
every key regardless of type. -/
def Backend.keysOf (b : Backend) : List String :=
  b.hashes.map Prod.fst ++ b.sets.map Prod.fst

/-- Backend `Keys(pattern)`: glob scan over the whole key space. -/
def Backend.keys (b : Backend) (pattern : String) : List String :=
  b.keysOf.filter (fun k => globMatchStr pattern k)

/-! ### ServiceConfig -/

/-- Modelled from the spec: `ServiceConfig` is the desired-state record
for one application (registry/config code is referenced from the sources
in scope but defined elsewhere in the repository).  `versionId` is the
monotonically increasing version identifier returned by `ID()`; `ports`
is the key set of `Ports()`. -/
structure ServiceConfig where
  name : String
  version : String
  versionId : Int
  envVars : List (String × String)
  ports : List String
deriving DecidableEq

/-- Modelled from the spec: a fresh, empty desired-state record as
produced by `NewServiceConfig(app, version)`. -/
def NewServiceConfig (app version : String) : ServiceConfig :=
  { name := app, version := version, versionId := 1, envVars := [], ports := [] }

/-- Modelled from the spec: `SetServiceConfig` persists a config as a
hash at `env/appName/environment` with `id`, `version` and `environment`
fields (repository comment: services have id, version and environment
keys). -/
def SetServiceConfig (b : Backend) (cfg : ServiceConfig) (env : String) :
    Bool × Backend :=
  let key := pathJoin [env, cfg.name, "environment"]
  let b1 := b.hset key "id" (.prim (.str (toString cfg.versionId)))
  let b2 := b1.hset key "version" (.prim (.str cfg.version))
  let b3 := b2.hset key "environment" (.prim (.str env))
  (true, b3)

/-- Modelled from the spec: `GetServiceConfig` reads the config hash back
and decodes it; an absent hash is a nil result without error, while a
record whose `id` field fails to parse as an integer is a decode error. -/
def GetServiceConfig (b : Backend) (app env : String) :
    Except String (Option ServiceConfig) :=
  let key := pathJoin [env, app, "environment"]
  match b.hget key "id", b.hget key "version" with
  | none, none => .ok none
  | some (.prim (.str sid)), some (.prim (.str v)) =>
    match parseInt sid with
    | some n =>
      .ok (some { name := app, version := v, versionId := n,
                  envVars := [], ports := [] })
    | none => .error ("unable to decode config for " ++ app)
  | _, _ => .error ("unable to decode config for " ++ app)

/-! ### ServiceRegistration and its JSON wire format (registration source)

Field-by-field image of the Go struct tags: `NAME`, the IP/port pairs,
`IMAGE`, `IMAGE_ID` and `ERROR_PAGES` carry `omitempty`; `Expires` and
`Path` are tagged `-` and never serialized; timestamps are embedded as
integers. -/

structure ServiceRegistration where
  name : String
  externalIp : String
  externalPort : String
  internalIp : String
  internalPort : String
  containerId : String
  containerName : String
  image : String
  imageId : String
  startedAt : Int
  expires : Int
  path : String
  virtualHosts : List String
  port : String
  errorPages : List (String × String)
deriving DecidableEq

/-- The zero value of the struct, the starting point of a fresh decode. -/
def zeroServiceRegistration : ServiceRegistration :=
  { name := "", externalIp := "", externalPort := "", internalIp := "",
    internalPort := "", containerId := "", containerName := "", image := "",
    imageId := "", startedAt := 0, expires := 0, path := "",
    virtualHosts := [], port := "", errorPages := [] }

/-- `json.Marshal` of a ServiceRegistration: fields in struct order,
`omitempty` fields dropped at their zero value, `-` fields dropped
always. -/
def marshalServiceRegistration (s : ServiceRegistration) : Jobj :=
  (if s.name = "" then [] else [("NAME", Jprim.str s.name)]) ++
  (if s.externalIp = "" then [] else [("EXTERNAL_IP", Jprim.str s.externalIp)]) ++
  (if s.externalPort = "" then [] else [("EXTERNAL_PORT", Jprim.str s.externalPort)]) ++
  (if s.internalIp = "" then [] else [("INTERNAL_IP", Jprim.str s.internalIp)]) ++
  (if s.internalPort = "" then [] else [("INTERNAL_PORT", Jprim.str s.internalPort)]) ++
  [("CONTAINER_ID", Jprim.str s.containerId),
   ("CONTAINER_NAME", Jprim.str s.containerName)] ++
  (if s.image = "" then [] else [("IMAGE", Jprim.str s.image)]) ++
  (if s.imageId = "" then [] else [("IMAGE_ID", Jprim.str s.imageId)]) ++
  [("STARTED_AT", Jprim.num s.startedAt),
   ("VIRTUAL_HOSTS", Jprim.arr s.virtualHosts),
   ("PORT", Jprim.str s.port)] ++
  (if s.errorPages = [] then [] else [("ERROR_PAGES", Jprim.smap s.errorPages)])

/-- Read a string field: an absent key keeps the value already in the
target struct (Go `json.Unmarshal` merge semantics); a key of the wrong
JSON type is a decode error. -/
def jGetStr (o : Jobj) (k dflt : String) : Option String :=
  match o.lookup k with
  | none => some dflt
  | some (.str s) => some s
  | some _ => none

def jGetNum (o : Jobj) (k : String) (dflt : Int) : Option Int :=
  match o.lookup k with
  | none => some dflt
  | some (.num n) => some n
  | some _ => none

def jGetArr (o : Jobj) (k : String) (dflt : List String) : Option (List String) :=
  match o.lookup k with
  | none => some dflt
  | some (.arr xs) => some xs
  | some _ => none

def jGetSmap (o : Jobj) (k : String) (dflt : List (String × String)) :
    Option (List (String × String)) :=
  match o.lookup k with
  | none => some dflt
  | some (.smap m) => some m
  | some _ => none

/-- `json.Unmarshal` of a registration object into an existing struct
value: JSON-tagged fields are overwritten when present, kept when
absent; `Expires` and `Path` (tag `-`) are never touched. -/
def unmarshalServiceRegistration (init : ServiceRegistration) (o : Jobj) :
    Option ServiceRegistration := do
  let name ← jGetStr o "NAME" init.name
  let externalIp ← jGetStr o "EXTERNAL_IP" init.externalIp
  let externalPort ← jGetStr o "EXTERNAL_PORT" init.externalPort
  let internalIp ← jGetStr o "INTERNAL_IP" init.internalIp
  let internalPort ← jGetStr o "INTERNAL_PORT" init.internalPort
  let containerId ← jGetStr o "CONTAINER_ID" init.containerId
  let containerName ← jGetStr o "CONTAINER_NAME" init.containerName
  let image ← jGetStr o "IMAGE" init.image
  let imageId ← jGetStr o "IMAGE_ID" init.imageId
  let startedAt ← jGetNum o "STARTED_AT" init.startedAt
  let virtualHosts ← jGetArr o "VIRTUAL_HOSTS" init.virtualHosts
  let port ← jGetStr o "PORT" init.port
  let errorPages ← jGetSmap o "ERROR_PAGES" init.errorPages
  some { name := name, externalIp := externalIp, externalPort := externalPort,
         internalIp := internalIp, internalPort := internalPort,
         containerId := containerId, containerName := containerName,
         image := image, imageId := imageId, startedAt := startedAt,
         expires := init.expires, path := init.path,
         virtualHosts := virtualHosts, port := port, errorPages := errorPages }

/-- Decode a backend value as a registration record: only serialized
JSON objects decode; anything else is an unmarshal error. -/
def unmarshalRegistrationVal (init : ServiceRegistration) (v : Jval) :
    Option ServiceRegistration :=
  match v with
  | .obj o => unmarshalServiceRegistration init o
  | .prim _ => none

/-! ### Registry operations (registry.go) -/

/-- `AppExists`: any key under `env/app/` marks the app as existing. -/
def AppExists (b : Backend) (app env : String) : Bool :=
  !(b.keys (pathJoin [env, app, "*"])).isEmpty

/-- `ListAssignments`: members of the pool's assignment set. -/
def ListAssignments (b : Backend) (env pool : String) : List String :=
  b.members (pathJoin [env, "pools", pool])

/-- `CreatePool`: add the pool name to the environment's pool set. -/
def CreatePool (b : Backend) (name env : String) : Bool × Backend :=
  let (added, b') := b.addMember (pathJoin [env, "pools", "*"]) name
  (added == 1, b')

/-- `DeletePool`: refuse (returning false, mutating nothing) while any
app is still assigned; otherwise remove the pool from the pool set. -/
def DeletePool (b : Backend) (pool env : String) : Bool × Backend :=
  if (ListAssignments b env pool).isEmpty then
    let (removed, b') := b.removeMember (pathJoin [env, "pools", "*"]) pool
    (removed == 1, b')
  else
    (false, b)

/-- `CreateApp`: fail without mutating when the app already exists,
otherwise persist an empty config tagged with the environment name. -/
def CreateApp (b : Backend) (app env : String) : Bool × Backend :=
  if AppExists b app env then (false, b)
  else
    let emptyConfig := { NewServiceConfig app "" with envVars := [("ENV", env)] }
    SetServiceConfig b emptyConfig env

/-- Go `path.Base` restricted to the slash-separated, non-slash-ended keys
the registry scans: the last non-empty path component. -/
def pathBase (s : String) : String :=
  match ((splitChar s '/').filter (fun p => p != "")).getLast? with
  | some last => last
  | none => "."

/-- The `ListApps` loop body over the scanned key list.  A key that does
not have exactly three components, or whose middle component is `hosts`,
is skipped; a `GetServiceConfig` failure aborts the whole enumeration
with that error (`return nil, err` in the source); a nil config would be
dereferenced, embedded as an error. -/
def listAppsGo (b : Backend) (env : String) :
    List String → Except String (List ServiceConfig)
  | [] => .ok []
  | key :: rest =>
    let parts := splitChar key '/'
    if parts.length ≠ 3 then listAppsGo b env rest
    else if parts.getD 1 "" = "hosts" then listAppsGo b env rest
    else
      match GetServiceConfig b (parts.getD 1 "") env with
      | .error e => .error e
      | .ok none => .error ("nil ServiceConfig for " ++ key)
      | .ok (some cfg) =>
        match listAppsGo b env rest with
        | .error e => .error e
        | .ok cfgs => .ok (cfg :: cfgs)

/-- `ListApps`: scan `env/*/environment` and decode each config. -/
def ListApps (b : Backend) (env : String) : Except String (List ServiceConfig) :=
  listAppsGo b env (b.keys (pathJoin [env, "*", "environment"]))

/-- True when a `GetServiceConfig` result carries no decoded config:
either a decode error or a nil config. -/
def configDecodeFailed (r : Except String (Option ServiceConfig)) : Bool :=
  match r with
  | .ok (some _) => false
  | _ => true

/-- Per-key step of `ListRegistrations`: a record whose location field
cannot be fetched, or whose value fails to unmarshal as a registration,
is skipped (logged in the source); the name defaults to the key's base
and the path is recorded afterwards. -/
def listRegistrationsKey (b : Backend) (key : String) : Option ServiceRegistration :=
  match b.hget key "location" with
  | none => none
  | some v =>
    match unmarshalRegistrationVal
        { zeroServiceRegistration with name := pathBase key } v with
    | none => none
    | some reg => some { reg with path := key }

/-- `ListRegistrations`: scan `env/*/hosts/*/*/*` and decode each
registration, skipping undecodable records. -/
def ListRegistrations (b : Backend) (env : String) : List ServiceRegistration :=
  (b.keys (pathJoin [env, "*", "hosts", "*", "*", "*"])).filterMap
    (listRegistrationsKey b)

/-! ### Docker engine model (external collaborator, spec section 6)

Containers and images become explicit state; `InspectContainer` treats
absence as the distinguished NoSuchContainer condition (`none`); each
container carries the behavior its stop call exhibits, so the bounded
20-second wait of the source becomes a three-valued outcome. -/

/-- How a container responds to an engine stop call: returning in time,
returning an error, or hanging past the 20-second bound. -/
inductive StopOutcome where
  | ok
  | failed
  | timeout
deriving DecidableEq

structure PortBinding where
  hostIp : String
  hostPort : String
deriving DecidableEq

structure NetworkSettings where
  ipAddress : String
  ports : List (String × List PortBinding)
deriving DecidableEq

structure ContainerConfig where
  image : String
  env : List String
deriving DecidableEq

structure DockerContainer where
  id : String
  names : List String
  created : Int
  running : Bool
  config : ContainerConfig
  networkSettings : NetworkSettings
  stopBehavior : StopOutcome
deriving DecidableEq

structure DockerState where
  containers : List DockerContainer
  images : List String
  nextId : Nat
deriving DecidableEq

/-- A container's primary docker name, slash-prefixed as docker reports
it. -/
def primaryName (c : DockerContainer) : String := c.names.headD ""

/-- `InspectContainer` by name; `none` is the NoSuchContainer case. -/
def inspectContainer (st : DockerState) (name : String) : Option DockerContainer :=
  st.containers.find? (fun c => primaryName c == "/" ++ name)

def inspectContainerId (st : DockerState) (id : String) : Option DockerContainer :=
  st.containers.find? (fun c => c.id == id)

def freshId (st : DockerState) : String := "cid" ++ toString st.nextId

/-- `CreateContainer` with a name: created stopped, listed last. -/
def createContainer (st : DockerState) (name image : String)
    (env : List String) (now : Int) : DockerContainer × DockerState :=
  let c : DockerContainer :=
    { id := freshId st, names := ["/" ++ name], created := now,
      running := false,
      config := { image := image, env := env },
      networkSettings := { ipAddress := "", ports := [] },
      stopBehavior := .ok }
  (c, { st with containers := st.containers ++ [c], nextId := st.nextId + 1 })

def startContainer (st : DockerState) (id : String) : DockerState :=
  { st with containers :=
      st.containers.map (fun c => if c.id == id then { c with running := true } else c) }

/-- `RemoveContainer` (volumes included). -/
def removeContainer (st : DockerState) (id : String) : DockerState :=
  { st with containers := st.containers.filter (fun c => c.id != id) }

/-- Modelled from the spec: `utils.SplitDockerImage` splits an image
string into registry (before the first slash, empty when none),
repository, and tag (after the first colon of the remainder). -/
def splitDockerImage (img : String) : String × String × String :=
  let br := breakAtChar '/' img.data
  let registry := match br.2 with
    | some _ => String.mk br.1
    | none => ""
  let rest := match br.2 with
    | some tail => String.mk tail
    | none => img
  let bc := breakAtChar ':' rest.data
  match bc.2 with
  | some tail => (registry, String.mk bc.1, String.mk tail)
  | none => (registry, rest, "")

/-- Modelled from the spec: the container name embeds the app name and
the numeric version identifier in the fixed pattern `name_id`. -/
def ServiceConfig.containerName (cfg : ServiceConfig) : String :=
  cfg.name ++ "_" ++ toString cfg.versionId

/-- Modelled from the spec: a name matches this service's container
pattern when it splits as `name_id` with this app's name and a numeric
id; a name failing the pattern is treated as wrong-version, never as an
error. -/
def ServiceConfig.isContainerVersion (cfg : ServiceConfig) (nm : String) : Bool :=
  match splitChar nm '_' with
  | [n, ver] => n == cfg.name && (parseNat ver).isSome
  | _ => false

/-! ### Service runtime: image pulls (runtime.go `PullImage`) -/

structure Creds where
  username : String
  password : String
  email : String
deriving DecidableEq

def emptyCreds : Creds := ⟨"", "", ""⟩

abbrev AuthFile := List (String × Creds)

/-- Modelled from the docker auth contract: resolve the credentials for
a registry from the operator's stored config file. -/
def resolveAuthConfig (cfgFile : AuthFile) (registry : String) : Creds :=
  (cfgFile.lookup registry).getD emptyCreds

/-- One engine pull call as issued by `PullImage`: the repository and
registry options together with the credentials passed. -/
structure PullCall where
  repository : String
  registryHost : String
  auth : Creds
deriving DecidableEq

/-- A remotely available repository: pulls naming it succeed and
download its images. -/
structure RemoteRepo where
  repository : String
  registryHost : String
  images : List String
deriving DecidableEq

/-- Result of `PullImage`: the image (when found), the engine state, the
pull calls issued, and the error reported to the caller. -/
structure PullOutcome where
  image : Option String
  st : DockerState
  calls : List PullCall
  err : Option String
deriving DecidableEq

/-- The engine-side pull: succeeds only for a known remote repository. -/
def enginePull (remote : List RemoteRepo) (st : DockerState)
    (repository registryHost : String) : DockerState × Option String :=
  match remote.find? (fun r =>
      r.repository == repository && r.registryHost == registryHost) with
  | some r => ({ st with images := st.images ++ r.images }, none)
  | none => (st, some ("Tag not found in repository " ++ repository))

/-- `InspectImage` by version string; absent is `none`, not an error. -/
def inspectImage (st : DockerState) (version : String) : Option String :=
  if version ∈ st.images then some version else none

/-- The pull options and credentials `PullImage` assembles for an
absent image: the registry-prefixed repository and resolved credentials
for a non-default registry while no auth config is cached, else the
plain repository with empty credentials. -/
def pullCallFor (authConfig : Option AuthFile) (dockercfg : AuthFile)
    (version : String) : PullCall :=
  if (splitDockerImage version).1 != "" && authConfig.isNone then
    { repository := (splitDockerImage version).1 ++ "/" ++
        (splitDockerImage version).2.1,
      registryHost := (splitDockerImage version).1,
      auth := resolveAuthConfig dockercfg (splitDockerImage version).1 }
  else
    { repository := (splitDockerImage version).2.1, registryHost := "",
      auth := emptyCreds }

/-- `PullImage(version)`: a locally present image is returned without
pulling; otherwise the version is split into (registry, repository),
credentials are resolved from the operator's stored auth config only for
a non-default registry (and only while no auth config is cached on the
runtime), and the pull's error, if any, is reported to the caller. -/
def PullImage (authConfig : Option AuthFile) (dockercfg : AuthFile)
    (remote : List RemoteRepo) (st : DockerState) (version : String) :
    PullOutcome :=
  match inspectImage st version with
  | some img => { image := some img, st := st, calls := [], err := none }
  | none =>
    let call := pullCallFor authConfig dockercfg version
    match enginePull remote st call.repository call.registryHost with
    | (st', some e) => { image := none, st := st', calls := [call], err := some e }
    | (st', none) =>
      { image := inspectImage st' version, st := st', calls := [call],
        err := none }

/-! ### Service runtime: start paths (runtime.go `Start`,
`StartIfNotRunning`) -/

/-- Upper-case an environment variable key, Go `strings.ToUpper`. -/
def upperStr (s : String) : String := String.mk (s.data.map Char.toUpper)

/-- The environment list `Start` builds: the service's own variables
upper-cased, plus an `<APP>_ADDR_<port>` discovery variable for every
port of every other known app, resolved to the shared ingress host. -/
def startEnvVars (cfg : ServiceConfig) (otherConfigs : List ServiceConfig)
    (shuttleHost : String) : List String :=
  cfg.envVars.map (fun kv => upperStr kv.1 ++ "=" ++ kv.2) ++
  (otherConfigs.map (fun oc => oc.ports.map (fun port =>
    upperStr oc.name ++ "_ADDR_" ++ port ++ "=" ++ shuttleHost ++ ":" ++ port))).join

/-- Start the (created or found) container and confirm it is running;
the five one-second polls of the source collapse to one state check in a
model whose state changes only through calls. -/
def startAndPoll (st : DockerState) (id : String) :
    Except String (DockerContainer × DockerState) :=
  let st' := startContainer st id
  match inspectContainerId st' id with
  | none => .error "no such container"
  | some c =>
    if c.running then .ok (c, st') else .error "Container stopped unexpectedly"

/-- `Start(serviceConfig)`: pull the image, build the environment,
create the named container only when absent, start it, and fail if it is
not observed running. -/
def startService (authConfig : Option AuthFile) (dockercfg : AuthFile)
    (remote : List RemoteRepo) (otherConfigs : List ServiceConfig)
    (shuttleHost : String) (now : Int) (st : DockerState)
    (cfg : ServiceConfig) : Except String (DockerContainer × DockerState) :=
  let pull := PullImage authConfig dockercfg remote st cfg.version
  match pull.err with
  | some e => .error e
  | none =>
    let envVars := startEnvVars cfg otherConfigs shuttleHost
    match inspectContainer pull.st cfg.containerName with
    | some container => startAndPoll pull.st container.id
    | none =>
      let created := createContainer pull.st cfg.containerName cfg.version envVars now
      startAndPoll created.2 created.1.id

/-- The container a fresh `Start` creates: the versioned name, the
config's image, the discovery environment, started running. -/
def startedContainer (st : DockerState) (cfg : ServiceConfig)
    (otherConfigs : List ServiceConfig) (shuttleHost : String) (now : Int) :
    DockerContainer :=
  { id := freshId st, names := ["/" ++ cfg.containerName], created := now,
    running := true,
    config := { image := cfg.version,
                env := startEnvVars cfg otherConfigs shuttleHost },
    networkSettings := { ipAddress := "", ports := [] },
    stopBehavior := .ok }

/-- The engine state a fresh `Start` leaves behind: the old containers
untouched, the new one appended. -/
def startedState (st : DockerState) (cfg : ServiceConfig)
    (otherConfigs : List ServiceConfig) (shuttleHost : String) (now : Int) :
    DockerState :=
  { containers := st.containers ++ [startedContainer st cfg otherConfigs shuttleHost now],
    images := st.images,
    nextId := st.nextId + 1 }

/-- `StartIfNotRunning(serviceConfig)`: the convergence decision — start
when no container of the expected versioned name exists (changed=true),
otherwise compare the found container's name against the expected one
and leave it alone when they agree (changed=false). -/
def StartIfNotRunning (authConfig : Option AuthFile) (dockercfg : AuthFile)
    (remote : List RemoteRepo) (otherConfigs : List ServiceConfig)
    (shuttleHost : String) (now : Int) (st : DockerState)
    (cfg : ServiceConfig) : Except String (Bool × DockerContainer × DockerState) :=
  match inspectContainer st cfg.containerName with
  | none =>
    match startService authConfig dockercfg remote otherConfigs shuttleHost now st cfg with
    | .error e => .error e
    | .ok (c, st') => .ok (true, c, st')
  | some container =>
    let containerName := chopSlash (primaryName container)
    if (!(cfg.isContainerVersion containerName)) &&
        (cfg.containerName == primaryName container) then
      .ok (false, container, st)
    else if containerName != cfg.containerName then
      match startService authConfig dockercfg remote otherConfigs shuttleHost now st cfg with
      | .error e => .error e
      | .ok (c, st') => .ok (true, c, st')
    else
      .ok (false, container, st)

/-! ### Service runtime: reaping (runtime.go `StopAllButLatest`) -/

/-- State threaded through a reap run: the engine state, the in-memory
blacklist, and the trace of container ids a stop was attempted on. -/
structure ReapState where
  st : DockerState
  bl : List String
  attempts : List String
deriving DecidableEq

/-- The outcome the engine's stop call gives for an id: a vanished
container errors (NoSuchContainer), otherwise the container's stop
behavior decides. -/
def stopOutcomeFor (st : DockerState) (id : String) : StopOutcome :=
  match inspectContainerId st id with
  | none => .failed
  | some c => c.stopBehavior

/-- Inner loop body of `StopAllButLatest` for one listed container: skip
unnamed containers, names failing this service's pattern, the latest
container itself, recent containers, and blacklisted ids; otherwise
attempt a stop — a timeout blacklists the id and leaves the container, a
failure moves on, success removes the container with volumes. -/
def reapContainer (cfg : ServiceConfig) (registry repository latestId : String)
    (stopCutoff now : Int) (r : ReapState) (c : DockerContainer) : ReapState :=
  if c.names.isEmpty then r
  else if !(cfg.isContainerVersion (chopSlash (c.names.headD ""))) then r
  else if (splitDockerImage c.config.image).1 == registry &&
      (splitDockerImage c.config.image).2.1 == repository &&
      c.id != latestId && decide (c.created < now - stopCutoff) then
    if c.id ∈ r.bl then r
    else
      match stopOutcomeFor r.st c.id with
      | .timeout =>
        { st := r.st, bl := r.bl ++ [c.id], attempts := r.attempts ++ [c.id] }
      | .failed => { r with attempts := r.attempts ++ [c.id] }
      | .ok =>
        { st := removeContainer r.st c.id, bl := r.bl,
          attempts := r.attempts ++ [c.id] }
  else r

/-- Per-config pass of `StopAllButLatest`: a config whose expected
latest container is not running is skipped, leaving old ones alone. -/
def reapConfig (snapshot : List DockerContainer) (stopCutoff now : Int)
    (r : ReapState) (cfg : ServiceConfig) : ReapState :=
  match inspectContainer r.st cfg.containerName with
  | none => r
  | some latest =>
    snapshot.foldl
      (reapContainer cfg (splitDockerImage cfg.version).1
        (splitDockerImage cfg.version).2.1 latest.id stopCutoff now) r

/-- `StopAllButLatest(stopCutoff)`: list running containers once, then
reap per deployed config. -/
def StopAllButLatest (configs : List ServiceConfig) (stopCutoff now : Int)
    (st : DockerState) (bl : List String) : ReapState :=
  let snapshot := st.containers.filter (fun c => c.running)
  configs.foldl (reapConfig snapshot stopCutoff now)
    { st := st, bl := bl, attempts := [] }

/-! ### Service registration (registration source, part_000) -/

/-- `EnvFor`: parse the container's `KEY=value` environment entries into
a map, splitting each entry at its first `=` (later entries override
earlier ones, as Go map assignment does). -/
def envFor (entries : List String) : List (String × String) :=
  entries.foldl (fun m item =>
    match (breakAtChar '=' item.data).2 with
    | some rest => assocPut m (String.mk (breakAtChar '=' item.data).1) (String.mk rest)
    | none => m) []

/-- Go map read: missing keys give the empty string. -/
def envGet (m : List (String × String)) (k : String) : String :=
  (m.lookup k).getD ""

/-- The first exposed port that has at least one binding — the source
iterates `NetworkSettings.Ports` and breaks at the first non-empty
binding list. -/
def firstPortBinding : List (String × List PortBinding) →
    Option (String × PortBinding)
  | [] => none
  | (_, []) :: rest => firstPortBinding rest
  | (k, b :: _) :: _ => some (k, b)

/-- `docker.Port.Port()`: the numeric part of a `port/proto` key. -/
def portNumber (p : String) : String := (splitChar p '/').getD 0 ""

/-- `newServiceRegistration`: identity fields from the container; the
four IP/port fields are filled from the first bound port only when both
its host port and its port number are non-empty, and stay empty
otherwise. -/
def newServiceRegistration (hostIP : String) (c : DockerContainer) :
    ServiceRegistration :=
  let ep := match firstPortBinding c.networkSettings.ports with
    | none => ("", "")
    | some (k, bind) => (bind.hostPort, portNumber k)
  let base := { zeroServiceRegistration with
    containerName := primaryName c,
    containerId := c.id,
    startedAt := c.created,
    image := c.config.image }
  if ep.1 != "" && ep.2 != "" then
    { base with
      externalIp := hostIP
      internalIp := c.networkSettings.ipAddress
      externalPort := ep.1
      internalPort := ep.2 }
  else base

def isSpaceChar (c : Char) : Bool :=
  c == ' ' || c == '\t' || c == '\n' || c == '\r'

/-- Go `strings.TrimSpace`. -/
def trimSpace (s : String) : String :=
  String.mk (((s.data.dropWhile isSpaceChar).reverse.dropWhile isSpaceChar).reverse)

/-- Match a literal character-list at the front of a string, giving the
remainder. -/
def stripLit : List Char → List Char → Option (List Char)
  | [], s => some s
  | _ :: _, [] => none
  | p :: ps, c :: cs => if p = c then stripLit ps cs else none

def isDigitChar (c : Char) : Bool :=
  decide ('0' ≤ c) && decide (c ≤ '9')

/-- `fmt.Sscanf(key, "VIRTUAL_HOST_%d", &code)`: succeeds when the key
starts with the literal followed by an optionally signed integer;
trailing characters are ignored, as Sscanf ignores unconsumed input. -/
def scanVhostCode (key : String) : Option Int :=
  match stripLit "VIRTUAL_HOST_".data key.data with
  | none => none
  | some rest =>
    match rest with
    | '-' :: ds =>
      let digits := ds.takeWhile isDigitChar
      if digits.isEmpty then none
      else (parseNatAux digits 0).map (fun n => -(n : Int))
    | ds =>
      let digits := ds.takeWhile isDigitChar
      if digits.isEmpty then none
      else (parseNatAux digits 0).map (fun n => (n : Int))

/-- Short container id, `container.ID[0:12]`. -/
def shortId (c : DockerContainer) : String := String.mk (c.id.data.take 12)

/-- `RegisterService` (part_000): fail when the container does not
declare `GALAXY_APP`; otherwise build the registration from container
inspection, scrape `VIRTUAL_HOST`/`VIRTUAL_HOST_<n>` declarations,
serialize it at the registration path with the configured TTL, and
return it with its computed expiry. -/
def RegisterService (env pool hostIP : String) (ttl : Nat) (now : Int)
    (b : Backend) (c : DockerContainer) :
    Except String (ServiceRegistration × Backend) :=
  let environment := envFor c.config.env
  let name := envGet environment "GALAXY_APP"
  if name == "" then
    .error ("GALAXY_APP not set on container " ++ shortId c)
  else
    let registrationPath :=
      pathJoin [env, pool, "hosts", hostIP, name, shortId c]
    let sr1 := { newServiceRegistration hostIP c with
      name := name, imageId := c.config.image }
    let vhosts := envGet environment "VIRTUAL_HOST"
    let sr2 :=
      if trimSpace vhosts != "" then
        { sr1 with virtualHosts := splitChar vhosts ',' }
      else sr1
    let errorPages := environment.foldl
      (fun eps kv =>
        if (scanVhostCode kv.1).isSome then assocPut eps kv.1 kv.2 else eps) []
    let sr3 :=
      if errorPages.isEmpty then sr2 else { sr2 with errorPages := errorPages }
    let sr4 := { sr3 with port := envGet environment "GALAXY_PORT" }
    let b1 := b.hset registrationPath "location"
      (Jval.obj (marshalServiceRegistration sr4))
    let b2 := b1.expire registrationPath ttl
    .ok ({ sr4 with expires := now + ttl }, b2)

/-! ### Change detection (notify.go `checkForChanges`)

The polling loop is embedded over the sequence of `ListApps` results it
observes: one list of configs per trigger.  The `lastVersion` map is an
association list defaulting to 0, matching the Go `map[string]int64`. -/

abbrev VersionMap := List (String × Int)

def vmGet (m : VersionMap) (k : String) : Int :=
  (m.lookup k).getD 0

def vmSet (m : VersionMap) (k : String) (v : Int) : VersionMap :=
  assocPut m k v

/-- The first, seeding pass of `checkForChanges`: remember every listed
config's version id, emitting no events. -/
def seedVersions (configs : List ServiceConfig) : VersionMap :=
  configs.foldl (fun m c => vmSet m c.name c.versionId) []

/-- One triggered pass of `checkForChanges`: for each config whose
version id differs from the remembered one, update the memory and emit
the config; configs with unchanged ids emit nothing. -/
def pollPass (last : VersionMap) : List ServiceConfig →
    VersionMap × List ServiceConfig
  | [] => (last, [])
  | c :: rest =>
    if c.versionId ≠ vmGet last c.name then
      ((pollPass (vmSet last c.name c.versionId) rest).1,
       c :: (pollPass (vmSet last c.name c.versionId) rest).2)
    else
      pollPass last rest

def checkForChangesRuns (last : VersionMap) :
    List (List ServiceConfig) → List (List ServiceConfig)
  | [] => []
  | p :: ps => (pollPass last p).2 :: checkForChangesRuns (pollPass last p).1 ps

/-- The whole `checkForChanges` loop observed over a sequence of poll
results: the first listing only seeds `lastVersion`, every later trigger
runs `pollPass`. -/
def checkForChanges : List (List ServiceConfig) → List (List ServiceConfig)
  | [] => []
  | p0 :: ps => [] :: checkForChangesRuns (seedVersions p0) ps

/-! ### Lemmas about glob matching and the backend -/

theorem data_append (s t : String) : (s ++ t).data = s.data ++ t.data := by
  cases s; cases t; rfl

theorem globStar_of_nil {f : List Char → Bool} (h : f [] = true)
    (s : List Char) : globStar f s = true := by
  induction s with
  | nil => simpa [globStar] using h
  | cons c s ih => simp [globStar, ih]

theorem globMatch_prefix_star (xs ys : List Char) (h : '*' ∉ xs) :
    globMatch (xs ++ ['*']) (xs ++ ys) = true := by
  induction xs with
  | nil =>
    show globMatch ['*'] ys = true
    simp only [globMatch, if_pos rfl]
    exact globStar_of_nil (by simp [globMatch]) ys
  | cons x xs ih =>
    have hx : x ≠ '*' := fun hc => h (hc ▸ List.mem_cons_self x xs)
    have hxs : '*' ∉ xs := fun hm => h (List.mem_cons_of_mem _ hm)
    simp [globMatch, hx, ih hxs]

theorem globMatchStr_prefix_star (p s : String) (hp : '*' ∉ p.data) :
    globMatchStr (p ++ "*") (p ++ s) = true := by
  show globMatch (p ++ "*").data (p ++ s).data = true
  rw [data_append, data_append]
  exact globMatch_prefix_star p.data s.data hp

theorem lookup_append_eq {β : Type} (k : String) (l₁ l₂ : List (String × β)) :
    (l₁ ++ l₂).lookup k = ((l₁.lookup k).orElse fun _ => l₂.lookup k) := by
  induction l₁ with
  | nil => rfl
  | cons p rest ih =>
    obtain ⟨a, v⟩ := p
    by_cases h : (k == a) = true
    · simp [List.lookup, h, Option.orElse]
    · simp only [Bool.not_eq_true] at h
      simp [List.lookup, h, ih]

theorem lookup_ite_singleton {β : Type} (c : Prop) [Decidable c] (k K : String) (v : β) :
    (if c then ([] : List (String × β)) else [(K, v)]).lookup k =
      if c then none else (if (k == K) = true then some v else none) := by
  split
  · rfl
  · simp only [List.lookup]
    cases h : k == K <;> simp [h]

theorem orElse_none' {α : Type} (o : Option α) : (o.orElse fun _ => none) = o := by
  cases o <;> rfl

theorem mem_fst_hsetGo (hs : List (String × List (String × Jval)))
    (key field : String) (v : Jval) :
    key ∈ (hsetGo hs key field v).map Prod.fst := by
  induction hs with
  | nil => simp [hsetGo]
  | cons kv rest ih =>
    obtain ⟨k, fs⟩ := kv
    by_cases hk : k = key
    · simp [hsetGo, hk]
    · simp only [hsetGo, beq_iff_eq, if_neg hk, List.map_cons, List.mem_cons]
      exact Or.inr ih

theorem sremGo_found (sets : List (String × List String)) (key v : String)
    (hv : v ∈ (sets.lookup key).getD []) :
    (sremGo sets key v).1 = 1 ∧
    ((sremGo sets key v).2.lookup key).getD [] =
      ((sets.lookup key).getD []).erase v := by
  induction sets with
  | nil => simp at hv
  | cons kv rest ih =>
    obtain ⟨k, ms⟩ := kv
    by_cases hk : key = k
    · subst hk
      simp only [List.lookup, beq_self_eq_true, Option.getD_some] at hv
      simp [sremGo, hv, List.lookup]
    · have hbk : (key == k) = false := by simp [hk]
      have hkb : (k == key) = false := by
        simp only [beq_eq_false_iff_ne, ne_eq]
        exact fun hc => hk hc.symm
      simp only [List.lookup, hbk] at hv
      have hrec := ih hv
      simp only [sremGo, hkb, Bool.false_eq_true, if_false]
      refine ⟨hrec.1, ?_⟩
      simp only [List.lookup, hbk]
      exact hrec.2

/-! ### Claim C1 -/

/-- Claim C1: for a valid app/environment pair (nonempty names free of
path and glob metacharacters) where the app does not yet exist,
`CreateApp` succeeds, `AppExists` subsequently reports true, and a second
`CreateApp` returns false while leaving the backend state — hence the
previously written ServiceConfig — completely unchanged. -/
theorem createApp_appExists_idempotent (b : Galaxy.Backend) (app env : String)
    (happ1 : app ≠ "") (happ2 : '*' ∉ app.data) (happ3 : '/' ∉ app.data)
    (henv1 : env ≠ "") (henv2 : '*' ∉ env.data) (henv3 : '/' ∉ env.data)
    (hnot : AppExists b app env = false) :
    (CreateApp b app env).1 = true ∧
    AppExists (CreateApp b app env).2 app env = true ∧
    CreateApp (CreateApp b app env).2 app env =
      (false, (CreateApp b app env).2) := by
  have hstep : CreateApp b app env =
      SetServiceConfig b { NewServiceConfig app "" with envVars := [("ENV", env)] } env := by
    simp [CreateApp, hnot]
  have hfst : (CreateApp b app env).1 = true := by
    rw [hstep]; rfl
  -- the config key written by SetServiceConfig
  have hkeymem : pathJoin [env, app, "environment"] ∈ (CreateApp b app env).2.keysOf := by
    rw [hstep]
    simp only [SetServiceConfig, Backend.hset, Backend.keysOf]
    exact List.mem_append_left _ (mem_fst_hsetGo _ _ _ _)
  -- the glob pattern used by AppExists matches that key
  have hpat : pathJoin [env, app, "*"] = (env ++ "/" ++ app ++ "/") ++ "*" := by
    simp [pathJoin, joinSlash, happ1, henv1, String.append_assoc]
  have hkey : pathJoin [env, app, "environment"] =
      (env ++ "/" ++ app ++ "/") ++ "environment" := by
    simp [pathJoin, joinSlash, happ1, henv1, String.append_assoc]
  have hnostar : '*' ∉ (env ++ "/" ++ app ++ "/").data := by
    rw [data_append, data_append, data_append]
    intro hm
    rcases List.mem_append.mp hm with hm1 | hm2
    · rcases List.mem_append.mp hm1 with hm3 | hm4
      · rcases List.mem_append.mp hm3 with hm5 | hm6
        · exact henv2 hm5
        · simp at hm6
      · exact happ2 hm4
    · simp at hm2
  have hglob : globMatchStr (pathJoin [env, app, "*"])
      (pathJoin [env, app, "environment"]) = true := by
    rw [hpat, hkey]
    exact globMatchStr_prefix_star _ _ hnostar
  have hkeys : pathJoin [env, app, "environment"] ∈
      (CreateApp b app env).2.keys (pathJoin [env, app, "*"]) := by
    exact List.mem_filter.mpr ⟨hkeymem, hglob⟩
  have hex : AppExists (CreateApp b app env).2 app env = true := by
    unfold AppExists
    have hne := List.ne_nil_of_mem hkeys
    cases hl : (CreateApp b app env).2.keys (pathJoin [env, app, "*"]) with
    | nil => exact absurd hl hne
    | cons a as => rfl
  refine ⟨hfst, hex, ?_⟩
  set b1 := (CreateApp b app env).2 with hb1
  simp [CreateApp, hex]

/-- Witness for claim C1 at a concrete empty backend. -/
theorem createApp_appExists_idempotent_witness :
    (CreateApp ⟨[], [], []⟩ "web" "prod").1 = true ∧
    AppExists (CreateApp ⟨[], [], []⟩ "web" "prod").2 "web" "prod" = true ∧
    CreateApp (CreateApp ⟨[], [], []⟩ "web" "prod").2 "web" "prod" =
      (false, (CreateApp ⟨[], [], []⟩ "web" "prod").2) :=
  createApp_appExists_idempotent ⟨[], [], []⟩ "web" "prod"
    (by decide) (by decide) (by decide) (by decide) (by decide) (by decide)
    (by decide)

/-! ### Claim C2 -/

/-- Claim C2: while `ListAssignments` for a pool is non-empty,
`DeletePool` returns false and leaves the whole backend state — the pool
and its membership set included — intact; once the assignment list is
empty, `DeletePool` on an existing pool (membership sets are duplicate
free, as Redis sets are) succeeds and removes the pool from the pool set,
never touching the config hashes. -/
theorem deletePool_blocked_then_succeeds (b : Galaxy.Backend) (env pool : String) :
    (ListAssignments b env pool ≠ [] → DeletePool b pool env = (false, b)) ∧
    (ListAssignments b env pool = [] →
      pool ∈ b.members (pathJoin [env, "pools", "*"]) →
      (b.members (pathJoin [env, "pools", "*"])).Nodup →
      (DeletePool b pool env).1 = true ∧
      pool ∉ (DeletePool b pool env).2.members (pathJoin [env, "pools", "*"]) ∧
      (DeletePool b pool env).2.hashes = b.hashes) := by
  constructor
  · intro hne
    have : (ListAssignments b env pool).isEmpty = false := by
      cases hl : ListAssignments b env pool with
      | nil => exact absurd hl hne
      | cons a as => rfl
    simp [DeletePool, this]
  · intro hempty hmem hnd
    have hie : (ListAssignments b env pool).isEmpty = true := by
      rw [hempty]; rfl
    have hsrem := sremGo_found b.sets (pathJoin [env, "pools", "*"]) pool hmem
    refine ⟨?_, ?_, ?_⟩
    · simp [DeletePool, hie, Backend.removeMember, hsrem.1]
    · simp only [DeletePool, hie, if_pos, Backend.removeMember, Backend.members]
      rw [hsrem.2]
      exact hnd.not_mem_erase
    · simp [DeletePool, hie, Backend.removeMember]

/-- Witness for claim C2 at a concrete backend with one assigned-then-
unassigned pool. -/
theorem deletePool_blocked_then_succeeds_witness :
    (DeletePool ⟨[], [("prod/pools/*", ["web"])], []⟩ "web" "prod").1 = true ∧
    "web" ∉ (DeletePool ⟨[], [("prod/pools/*", ["web"])], []⟩ "web" "prod").2.members
      (pathJoin ["prod", "pools", "*"]) ∧
    (DeletePool ⟨[], [("prod/pools/*", ["web"])], []⟩ "web" "prod").2.hashes =
      (⟨[], [("prod/pools/*", ["web"])], []⟩ : Galaxy.Backend).hashes :=
  (deletePool_blocked_then_succeeds ⟨[], [("prod/pools/*", ["web"])], []⟩ "prod" "web").2
    (by decide) (by decide) (by decide)

/-! ### Claim C7 -/

/-- Claim C7: serializing any ServiceRegistration and deserializing the
result into a fresh (zero) struct reproduces every JSON-visible field
exactly (the non-serialized `Expires` and `Path` come back at their zero
values), and `ERROR_PAGES` as well as each of the four IP/port fields is
absent from the serialized object whenever its value is empty. -/
theorem serviceRegistration_roundtrip (s : ServiceRegistration) :
    unmarshalServiceRegistration zeroServiceRegistration
        (marshalServiceRegistration s) =
      some { s with expires := 0, path := "" } ∧
    (s.errorPages = [] →
      (marshalServiceRegistration s).lookup "ERROR_PAGES" = none) ∧
    (s.externalIp = "" →
      (marshalServiceRegistration s).lookup "EXTERNAL_IP" = none) ∧
    (s.externalPort = "" →
      (marshalServiceRegistration s).lookup "EXTERNAL_PORT" = none) ∧
    (s.internalIp = "" →
      (marshalServiceRegistration s).lookup "INTERNAL_IP" = none) ∧
    (s.internalPort = "" →
      (marshalServiceRegistration s).lookup "INTERNAL_PORT" = none) := by
  have hname : jGetStr (marshalServiceRegistration s) "NAME" "" = some s.name := by
    by_cases h : s.name = "" <;>
      simp [jGetStr, marshalServiceRegistration, List.append_assoc,
        lookup_append_eq, lookup_ite_singleton, h, List.lookup, orElse_none',
        Option.orElse]
  have heip : jGetStr (marshalServiceRegistration s) "EXTERNAL_IP" "" =
      some s.externalIp := by
    by_cases h : s.externalIp = "" <;>
      simp [jGetStr, marshalServiceRegistration, List.append_assoc,
        lookup_append_eq, lookup_ite_singleton, h, List.lookup, orElse_none',
        Option.orElse]
  have hept : jGetStr (marshalServiceRegistration s) "EXTERNAL_PORT" "" =
      some s.externalPort := by
    by_cases h : s.externalPort = "" <;>
      simp [jGetStr, marshalServiceRegistration, List.append_assoc,
        lookup_append_eq, lookup_ite_singleton, h, List.lookup, orElse_none',
        Option.orElse]
  have hiip : jGetStr (marshalServiceRegistration s) "INTERNAL_IP" "" =
      some s.internalIp := by
    by_cases h : s.internalIp = "" <;>
      simp [jGetStr, marshalServiceRegistration, List.append_assoc,
        lookup_append_eq, lookup_ite_singleton, h, List.lookup, orElse_none',
        Option.orElse]
  have hipt : jGetStr (marshalServiceRegistration s) "INTERNAL_PORT" "" =
      some s.internalPort := by
    by_cases h : s.internalPort = "" <;>
      simp [jGetStr, marshalServiceRegistration, List.append_assoc,
        lookup_append_eq, lookup_ite_singleton, h, List.lookup, orElse_none',
        Option.orElse]
  have hcid : jGetStr (marshalServiceRegistration s) "CONTAINER_ID" "" =
      some s.containerId := by
    simp [jGetStr, marshalServiceRegistration, List.append_assoc,
      lookup_append_eq, lookup_ite_singleton, List.lookup, orElse_none',
      Option.orElse]
  have hcnm : jGetStr (marshalServiceRegistration s) "CONTAINER_NAME" "" =
      some s.containerName := by
    simp [jGetStr, marshalServiceRegistration, List.append_assoc,
      lookup_append_eq, lookup_ite_singleton, List.lookup, orElse_none',
      Option.orElse]
  have himg : jGetStr (marshalServiceRegistration s) "IMAGE" "" = some s.image := by
    by_cases h : s.image = "" <;>
      simp [jGetStr, marshalServiceRegistration, List.append_assoc,
        lookup_append_eq, lookup_ite_singleton, h, List.lookup, orElse_none',
        Option.orElse]
  have himgid : jGetStr (marshalServiceRegistration s) "IMAGE_ID" "" =
      some s.imageId := by
    by_cases h : s.imageId = "" <;>
      simp [jGetStr, marshalServiceRegistration, List.append_assoc,
        lookup_append_eq, lookup_ite_singleton, h, List.lookup, orElse_none',
        Option.orElse]
  have hsta : jGetNum (marshalServiceRegistration s) "STARTED_AT" 0 =
      some s.startedAt := by
    simp [jGetNum, marshalServiceRegistration, List.append_assoc,
      lookup_append_eq, lookup_ite_singleton, List.lookup, orElse_none',
      Option.orElse]
  have hvh : jGetArr (marshalServiceRegistration s) "VIRTUAL_HOSTS" [] =
      some s.virtualHosts := by
    simp [jGetArr, marshalServiceRegistration, List.append_assoc,
      lookup_append_eq, lookup_ite_singleton, List.lookup, orElse_none',
      Option.orElse]
  have hport : jGetStr (marshalServiceRegistration s) "PORT" "" = some s.port := by
    simp [jGetStr, marshalServiceRegistration, List.append_assoc,
      lookup_append_eq, lookup_ite_singleton, List.lookup, orElse_none',
      Option.orElse]
  have herr : jGetSmap (marshalServiceRegistration s) "ERROR_PAGES" [] =
      some s.errorPages := by
    by_cases h : s.errorPages = [] <;>
      simp [jGetSmap, marshalServiceRegistration, List.append_assoc,
        lookup_append_eq, lookup_ite_singleton, h, List.lookup, orElse_none',
        Option.orElse]
  refine ⟨?_, ?_, ?_, ?_, ?_, ?_⟩
  · simp [unmarshalServiceRegistration, zeroServiceRegistration, hname, heip,
      hept, hiip, hipt, hcid, hcnm, himg, himgid, hsta, hvh, hport, herr]
  · intro h
    simp [marshalServiceRegistration, List.append_assoc, lookup_append_eq,
      lookup_ite_singleton, h, List.lookup, orElse_none', Option.orElse]
  · intro h
    simp [marshalServiceRegistration, List.append_assoc, lookup_append_eq,
      lookup_ite_singleton, h, List.lookup, orElse_none', Option.orElse]
  · intro h
    simp [marshalServiceRegistration, List.append_assoc, lookup_append_eq,
      lookup_ite_singleton, h, List.lookup, orElse_none', Option.orElse]
  · intro h
    simp [marshalServiceRegistration, List.append_assoc, lookup_append_eq,
      lookup_ite_singleton, h, List.lookup, orElse_none', Option.orElse]
  · intro h
    simp [marshalServiceRegistration, List.append_assoc, lookup_append_eq,
      lookup_ite_singleton, h, List.lookup, orElse_none', Option.orElse]

/-- Witness for claim C7 at a registration with every omittable field
empty. -/
theorem serviceRegistration_roundtrip_witness :
    unmarshalServiceRegistration zeroServiceRegistration
        (marshalServiceRegistration zeroServiceRegistration) =
      some { zeroServiceRegistration with expires := 0, path := "" } ∧
    ((zeroServiceRegistration).errorPages = [] →
      (marshalServiceRegistration zeroServiceRegistration).lookup "ERROR_PAGES" = none) ∧
    ((zeroServiceRegistration).externalIp = "" →
      (marshalServiceRegistration zeroServiceRegistration).lookup "EXTERNAL_IP" = none) ∧
    ((zeroServiceRegistration).externalPort = "" →
      (marshalServiceRegistration zeroServiceRegistration).lookup "EXTERNAL_PORT" = none) ∧
    ((zeroServiceRegistration).internalIp = "" →
      (marshalServiceRegistration zeroServiceRegistration).lookup "INTERNAL_IP" = none) ∧
    ((zeroServiceRegistration).internalPort = "" →
      (marshalServiceRegistration zeroServiceRegistration).lookup "INTERNAL_PORT" = none) :=
  serviceRegistration_roundtrip zeroServiceRegistration

/-! ### Claim C9 -/

theorem listRegistrationsKey_add_bad (b : Galaxy.Backend) (key : String) (v : Jval)
    (hlk : b.hashes.lookup key = none)
    (hun : unmarshalRegistrationVal
      { zeroServiceRegistration with name := pathBase key } v = none) :
    listRegistrationsKey
        { b with hashes := b.hashes ++ [(key, [("location", v)])] } =
      listRegistrationsKey b := by
  funext k'
  unfold listRegistrationsKey Backend.hget
  simp only [lookup_append_eq]
  cases hkk : b.hashes.lookup k' with
  | some fs => simp [Option.orElse]
  | none =>
    simp only [Option.orElse]
    by_cases hke : k' = key
    · subst hke
      simp [List.lookup, hun]
    · have hb : (k' == key) = false := by simp [hke]
      simp [List.lookup, hb]

theorem listAppsGo_error_of_bad (b : Galaxy.Backend) (env : String)
    (keys : List String)
    (h : ∃ key ∈ keys, (splitChar key '/').length = 3 ∧
      (splitChar key '/').getD 1 "" ≠ "hosts" ∧
      configDecodeFailed
        (GetServiceConfig b ((splitChar key '/').getD 1 "") env) = true) :
    ∃ e, listAppsGo b env keys = .error e := by
  induction keys with
  | nil =>
    obtain ⟨key, hk, _⟩ := h
    simp at hk
  | cons key rest ih =>
    obtain ⟨k, hk, hlen, hhosts, hfail⟩ := h
    rcases List.mem_cons.mp hk with rfl | hmem
    · simp only [listAppsGo]
      rw [if_neg (by simp [hlen])]
      rw [if_neg hhosts]
      cases hg : GetServiceConfig b ((splitChar k '/').getD 1 "") env with
      | error e => exact ⟨e, rfl⟩
      | ok oc =>
        cases oc with
        | none => exact ⟨"nil ServiceConfig for " ++ k, rfl⟩
        | some cfg =>
          rw [hg] at hfail
          simp [configDecodeFailed] at hfail
    · obtain ⟨e, he⟩ := ih ⟨k, hmem, hlen, hhosts, hfail⟩
      simp only [listAppsGo]
      by_cases h3 : (splitChar key '/').length ≠ 3
      · rw [if_pos h3]; exact ⟨e, he⟩
      · rw [if_neg h3]
        by_cases hh : (splitChar key '/').getD 1 "" = "hosts"
        · rw [if_pos hh]; exact ⟨e, he⟩
        · rw [if_neg hh]
          cases hg : GetServiceConfig b ((splitChar key '/').getD 1 "") env with
          | error e' => exact ⟨e', rfl⟩
          | ok oc =>
            cases oc with
            | none => exact ⟨"nil ServiceConfig for " ++ key, rfl⟩
            | some cfg => exact ⟨e, by rw [he]⟩

/-- Claim C9 does not hold of `ListApps`: on a backend holding one
decodable config (`good`) and one whose `id` field fails to parse
(`bad`), the whole enumeration returns the decode error instead of the
parseable records. -/
theorem listApps_aborts_on_bad_record_counterexample :
    ListApps
      ⟨[("prod/good/environment",
          [("id", Jval.prim (Jprim.str "3")),
           ("version", Jval.prim (Jprim.str "good:3")),
           ("environment", Jval.prim (Jprim.str "prod"))]),
        ("prod/bad/environment",
          [("id", Jval.prim (Jprim.str "oops")),
           ("version", Jval.prim (Jprim.str "bad:1")),
           ("environment", Jval.prim (Jprim.str "prod"))])], [], []⟩ "prod" =
      Except.error "unable to decode config for bad" ∧
    GetServiceConfig
      ⟨[("prod/good/environment",
          [("id", Jval.prim (Jprim.str "3")),
           ("version", Jval.prim (Jprim.str "good:3")),
           ("environment", Jval.prim (Jprim.str "prod"))]),
        ("prod/bad/environment",
          [("id", Jval.prim (Jprim.str "oops")),
           ("version", Jval.prim (Jprim.str "bad:1")),
           ("environment", Jval.prim (Jprim.str "prod"))])], [], []⟩
      "good" "prod" =
      Except.ok (some { name := "good", version := "good:3", versionId := 3,
                        envVars := [], ports := [] }) := by
  exact ⟨rfl, rfl⟩

/-- Claim C9 amended: `ListRegistrations` tolerates an individual bad
record — adding a record that fails to unmarshal leaves its result
unchanged, the other records still being returned — while `ListApps`
aborts the whole enumeration with an error as soon as any scanned config
record fails to decode. -/
theorem listEnumerations_partial_failure :
    (∀ (b : Galaxy.Backend) (env key : String) (v : Jval),
      b.hashes.lookup key = none →
      unmarshalRegistrationVal
        { zeroServiceRegistration with name := pathBase key } v = none →
      ListRegistrations
          { b with hashes := b.hashes ++ [(key, [("location", v)])] } env =
        ListRegistrations b env) ∧
    (∀ (b : Galaxy.Backend) (env : String),
      (∃ key ∈ b.keys (pathJoin [env, "*", "environment"]),
        (splitChar key '/').length = 3 ∧
        (splitChar key '/').getD 1 "" ≠ "hosts" ∧
        configDecodeFailed
          (GetServiceConfig b ((splitChar key '/').getD 1 "") env) = true) →
      (ListApps b env).toOption = none) := by
  constructor
  · intro b env key v hlk hun
    unfold ListRegistrations
    rw [listRegistrationsKey_add_bad b key v hlk hun]
    have hfk : listRegistrationsKey b key = none := by
      unfold listRegistrationsKey Backend.hget
      rw [hlk]
    have hmid : List.filterMap (listRegistrationsKey b)
        (List.filter
          (fun k => globMatchStr (pathJoin [env, "*", "hosts", "*", "*", "*"]) k)
          [key]) = [] := by
      cases hp : globMatchStr (pathJoin [env, "*", "hosts", "*", "*", "*"]) key with
      | false => simp [List.filter, hp]
      | true => simp [List.filter, hp, List.filterMap, hfk]
    simp only [Backend.keys, Backend.keysOf, List.map_append, List.map_cons,
      List.map_nil, List.append_assoc, List.filter_append,
      List.filterMap_append, hmid, List.append_nil, List.nil_append]
  · intro b env h
    obtain ⟨e, he⟩ := listAppsGo_error_of_bad b env _ h
    unfold ListApps
    rw [he]
    rfl

/-- Witness for the amended claim C9 at concrete backends. -/
theorem listEnumerations_partial_failure_witness :
    (ListRegistrations
        { (⟨[], [], []⟩ : Galaxy.Backend) with
          hashes := (⟨[], [], []⟩ : Galaxy.Backend).hashes ++
            [("prod/p1/hosts/h1/web/abc123",
              [("location", Jval.prim (Jprim.str "garbage"))])] } "prod" =
      ListRegistrations ⟨[], [], []⟩ "prod") ∧
    ((ListApps
        ⟨[("prod/good/environment",
            [("id", Jval.prim (Jprim.str "3")),
             ("version", Jval.prim (Jprim.str "good:3")),
             ("environment", Jval.prim (Jprim.str "prod"))]),
          ("prod/bad/environment",
            [("id", Jval.prim (Jprim.str "oops")),
             ("version", Jval.prim (Jprim.str "bad:1")),
             ("environment", Jval.prim (Jprim.str "prod"))])], [], []⟩
        "prod").toOption = none) :=
  ⟨listEnumerations_partial_failure.1 ⟨[], [], []⟩ "prod"
      "prod/p1/hosts/h1/web/abc123" (Jval.prim (Jprim.str "garbage")) rfl rfl,
   listEnumerations_partial_failure.2
      ⟨[("prod/good/environment",
          [("id", Jval.prim (Jprim.str "3")),
           ("version", Jval.prim (Jprim.str "good:3")),
           ("environment", Jval.prim (Jprim.str "prod"))]),
        ("prod/bad/environment",
          [("id", Jval.prim (Jprim.str "oops")),
           ("version", Jval.prim (Jprim.str "bad:1")),
           ("environment", Jval.prim (Jprim.str "prod"))])], [], []⟩ "prod"
      ⟨"prod/bad/environment", by decide, by decide, by decide, by decide⟩⟩

/-! ### Claim C3 -/

theorem vmGet_vmSet_self (m : VersionMap) (k : String) (v : Int) :
    vmGet (vmSet m k v) k = v := by
  induction m with
  | nil => simp [vmGet, vmSet, assocPut, List.lookup]
  | cons p rest ih =>
    obtain ⟨k', v'⟩ := p
    by_cases hk : k' = k
    · subst hk; simp [vmGet, vmSet, assocPut, List.lookup]
    · have h1 : (k' == k) = false := beq_eq_false_iff_ne.mpr hk
      have h2 : (k == k') = false :=
        beq_eq_false_iff_ne.mpr (fun hc => hk hc.symm)
      simpa [vmGet, vmSet, assocPut, h1, h2, List.lookup] using ih

theorem vmGet_vmSet_ne (m : VersionMap) (k k' : String) (v : Int)
    (h : k' ≠ k) : vmGet (vmSet m k v) k' = vmGet m k' := by
  induction m with
  | nil =>
    simp [vmGet, vmSet, assocPut, List.lookup, beq_eq_false_iff_ne.mpr h]
  | cons p rest ih =>
    obtain ⟨k0, v0⟩ := p
    by_cases hk : k0 = k
    · subst hk
      simp [vmGet, vmSet, assocPut, List.lookup, beq_eq_false_iff_ne.mpr h]
    · have h1 : (k0 == k) = false := beq_eq_false_iff_ne.mpr hk
      by_cases hk2 : k' = k0
      · subst hk2
        simp [vmGet, vmSet, assocPut, h1, List.lookup]
      · have h2 : (k' == k0) = false := beq_eq_false_iff_ne.mpr hk2
        simpa [vmGet, vmSet, assocPut, h1, h2, List.lookup] using ih

theorem pollPass_vmGet_of_not_mem (p : List ServiceConfig) :
    ∀ (m : VersionMap) (k : String), k ∉ p.map ServiceConfig.name →
    vmGet (pollPass m p).1 k = vmGet m k := by
  induction p with
  | nil => intro m k _; rfl
  | cons c rest ih =>
    intro m k h
    simp only [List.map_cons, List.mem_cons] at h
    push_neg at h
    obtain ⟨hk, hmem⟩ := h
    by_cases hc : c.versionId ≠ vmGet m c.name
    · simp only [pollPass, if_pos hc]
      rw [ih _ _ hmem, vmGet_vmSet_ne _ _ _ _ hk]
    · simp only [pollPass, if_neg hc]
      exact ih _ _ hmem

theorem pollPass_events (p : List ServiceConfig) :
    ∀ (last : VersionMap), (p.map ServiceConfig.name).Nodup →
    (pollPass last p).2 =
      p.filter (fun c => c.versionId != vmGet last c.name) := by
  induction p with
  | nil => intro last _; rfl
  | cons c rest ih =>
    intro last h
    simp only [List.map_cons, List.nodup_cons] at h
    obtain ⟨hni, hnd⟩ := h
    have hfc : ∀ c' ∈ rest,
        (c'.versionId != vmGet (vmSet last c.name c.versionId) c'.name) =
        (c'.versionId != vmGet last c'.name) := by
      intro c' hc'
      rw [vmGet_vmSet_ne]
      intro hceq
      exact hni (hceq ▸ List.mem_map_of_mem _ hc')
    by_cases hc : c.versionId ≠ vmGet last c.name
    · have hb : (c.versionId != vmGet last c.name) = true := bne_iff_ne.mpr hc
      simp only [pollPass, if_pos hc, List.filter_cons, hb, if_true]
      rw [ih (vmSet last c.name c.versionId) hnd, List.filter_congr hfc]
    · have hceq : c.versionId = vmGet last c.name := not_not.mp hc
      have hb : (c.versionId != vmGet last c.name) = false := by
        simp [bne, hceq]
      simp only [pollPass, if_neg hc, List.filter_cons, hb,
        Bool.false_eq_true, if_false]
      exact ih last hnd

theorem pollPass_remembers (p : List ServiceConfig) :
    ∀ (last : VersionMap), (p.map ServiceConfig.name).Nodup →
    ∀ c ∈ p, vmGet (pollPass last p).1 c.name = c.versionId := by
  induction p with
  | nil => intro last _ c hc; simp at hc
  | cons c0 rest ih =>
    intro last h c hc
    simp only [List.map_cons, List.nodup_cons] at h
    obtain ⟨hni, hnd⟩ := h
    rcases List.mem_cons.mp hc with rfl | hmem
    · by_cases hcv : c.versionId ≠ vmGet last c.name
      · simp only [pollPass, if_pos hcv]
        rw [pollPass_vmGet_of_not_mem rest _ _ hni, vmGet_vmSet_self]
      · have hceq : c.versionId = vmGet last c.name := not_not.mp hcv
        simp only [pollPass, if_neg hcv]
        rw [pollPass_vmGet_of_not_mem rest _ _ hni]
        exact hceq.symm
    · by_cases hcv : c0.versionId ≠ vmGet last c0.name
      · simp only [pollPass, if_pos hcv]
        exact ih _ hnd c hmem
      · simp only [pollPass, if_neg hcv]
        exact ih _ hnd c hmem

theorem countP_name_filter (c : ServiceConfig) (pred : ServiceConfig → Bool) :
    ∀ (p : List ServiceConfig), (p.map ServiceConfig.name).Nodup → c ∈ p →
    (p.filter pred).countP (fun c2 => c2.name == c.name) =
      if pred c then 1 else 0 := by
  intro p
  induction p with
  | nil => intro _ hc; simp at hc
  | cons c0 rest ih =>
    intro hnd hc
    simp only [List.map_cons, List.nodup_cons] at hnd
    obtain ⟨hni, hnd'⟩ := hnd
    rcases List.mem_cons.mp hc with rfl | hmem
    · have hzero : (rest.filter pred).countP (fun c2 => c2.name == c.name) = 0 := by
        apply List.countP_eq_zero.mpr
        intro a ha
        have hain := List.mem_of_mem_filter ha
        have hne : a.name ≠ c.name :=
          fun he => hni (he ▸ List.mem_map_of_mem _ hain)
        simp [hne]
      rw [List.filter_cons]
      by_cases hp : pred c
      · simp [hp, List.countP_cons, hzero]
      · simp [hp, hzero]
    · have hc0 : c0.name ≠ c.name := by
        intro he
        exact hni (he ▸ List.mem_map_of_mem _ hmem)
      rw [List.filter_cons]
      by_cases hp : pred c0
      · simp [hp, List.countP_cons, hc0, ih hnd' hmem]
      · simp [hp, ih hnd' hmem]

/-- Claim C3: the change-detection loop's very first pass emits no
events (it only seeds the version map); on a triggered pass over configs
with distinct names, the emitted events are exactly the configs whose
version id differs from the remembered value — the predicate reads only
the version identifier, so identical content under a new id still emits
— each such app emitting exactly one event and each unchanged app zero,
and the remembered value is updated to the observed id. -/
theorem checkForChanges_first_seed_then_per_version (p0 : List ServiceConfig)
    (ps : List (List ServiceConfig)) (last : VersionMap)
    (p : List ServiceConfig) (hnd : (p.map ServiceConfig.name).Nodup) :
    (checkForChanges (p0 :: ps)).head? = some [] ∧
    (pollPass last p).2 =
      p.filter (fun c => c.versionId != vmGet last c.name) ∧
    (∀ c ∈ p, vmGet (pollPass last p).1 c.name = c.versionId) ∧
    (∀ c ∈ p,
      ((pollPass last p).2.countP (fun c2 => c2.name == c.name)) =
        if c.versionId ≠ vmGet last c.name then 1 else 0) := by
  refine ⟨rfl, pollPass_events p last hnd, pollPass_remembers p last hnd, ?_⟩
  intro c hc
  rw [pollPass_events p last hnd,
    countP_name_filter c (fun c2 => c2.versionId != vmGet last c2.name) p hnd hc]
  by_cases h : c.versionId = vmGet last c.name
  · simp [h, bne]
  · simp [h, bne_iff_ne.mpr h]

/-- Witness for claim C3: one remembered app at version 1, re-listed at
version 2 (same content shape), emits exactly one event. -/
theorem checkForChanges_first_seed_then_per_version_witness :
    (checkForChanges
      ([{ name := "web", version := "web:1", versionId := 1,
          envVars := [], ports := [] }] ::
        [[{ name := "web", version := "web:2", versionId := 2,
            envVars := [], ports := [] }]])).head? = some [] ∧
    (pollPass [("web", 1)]
        [{ name := "web", version := "web:2", versionId := 2,
           envVars := [], ports := [] }]).2 =
      [{ name := "web", version := "web:2", versionId := 2,
         envVars := [], ports := [] }].filter
        (fun c => c.versionId != vmGet [("web", 1)] c.name) ∧
    vmGet (pollPass [("web", 1)]
        [{ name := "web", version := "web:2", versionId := 2,
           envVars := [], ports := [] }]).1
      ({ name := "web", version := "web:2", versionId := 2,
         envVars := [], ports := [] } : ServiceConfig).name =
      ({ name := "web", version := "web:2", versionId := 2,
         envVars := [], ports := [] } : ServiceConfig).versionId ∧
    ((pollPass [("web", 1)]
        [{ name := "web", version := "web:2", versionId := 2,
           envVars := [], ports := [] }]).2.countP
      (fun c2 => c2.name ==
        ({ name := "web", version := "web:2", versionId := 2,
           envVars := [], ports := [] } : ServiceConfig).name)) =
      (if ({ name := "web", version := "web:2", versionId := 2,
             envVars := [], ports := [] } : ServiceConfig).versionId ≠
          vmGet [("web", 1)]
            ({ name := "web", version := "web:2", versionId := 2,
               envVars := [], ports := [] } : ServiceConfig).name
       then 1 else 0) := by
  have h := checkForChanges_first_seed_then_per_version
    [{ name := "web", version := "web:1", versionId := 1, envVars := [], ports := [] }]
    [[{ name := "web", version := "web:2", versionId := 2, envVars := [], ports := [] }]]
    [("web", 1)]
    [{ name := "web", version := "web:2", versionId := 2, envVars := [], ports := [] }]
    (by decide)
  exact ⟨h.1, h.2.1, h.2.2.1 _ (by decide), h.2.2.2 _ (by decide)⟩

/-! ### Claims C4 and C5 -/

theorem mk_data (s : String) : String.mk s.data = s := by
  cases s; rfl

theorem data_slash_append (s : String) : ("/" ++ s).data = '/' :: s.data := by
  rw [data_append]; rfl

theorem chopSlash_slash (s : String) : chopSlash ("/" ++ s) = s := by
  unfold chopSlash
  rw [data_slash_append]
  exact mk_data s

theorem beq_slash_append (s : String) : (s == "/" ++ s) = false := by
  apply beq_eq_false_iff_ne.mpr
  intro h
  have hd : s.data = '/' :: s.data := by
    conv_lhs => rw [h]
    exact data_slash_append s
  have hl := congrArg List.length hd
  simp at hl

theorem map_id_of_eq {α : Type} (f : α → α) (l : List α)
    (h : ∀ a ∈ l, f a = a) : l.map f = l := by
  induction l with
  | nil => rfl
  | cons a rest ih =>
    rw [List.map_cons, h a (List.mem_cons_self a rest),
      ih (fun x hx => h x (List.mem_cons_of_mem _ hx))]

theorem find?_append_none {α : Type} (p : α → Bool) (l₁ l₂ : List α)
    (h : l₁.find? p = none) : (l₁ ++ l₂).find? p = l₂.find? p := by
  induction l₁ with
  | nil => rfl
  | cons a rest ih =>
    have hpa : p a = false := by
      have := List.find?_eq_none.mp h a (List.mem_cons_self a rest)
      simpa using this
    have hrest : rest.find? p = none := by
      apply List.find?_eq_none.mpr
      intro x hx
      simpa using List.find?_eq_none.mp h x (List.mem_cons_of_mem _ hx)
    rw [List.cons_append, List.find?_cons, hpa, ih hrest]

theorem startService_creates (A : Option AuthFile) (D : AuthFile)
    (R : List RemoteRepo) (O : List ServiceConfig) (H : String) (now : Int)
    (st : DockerState) (cfg : ServiceConfig)
    (himg : cfg.version ∈ st.images)
    (habsent : inspectContainer st cfg.containerName = none)
    (hfresh : ∀ c ∈ st.containers, c.id ≠ freshId st) :
    startService A D R O H now st cfg =
      .ok (startedContainer st cfg O H now, startedState st cfg O H now) := by
  have hpull : PullImage A D R st cfg.version =
      { image := some cfg.version, st := st, calls := [], err := none } := by
    unfold PullImage inspectImage
    rw [if_pos himg]
  have hmapold : st.containers.map
      (fun a => if a.id == freshId st then { a with running := true } else a) =
      st.containers := by
    apply map_id_of_eq
    intro a ha
    simp [hfresh a ha]
  have hfindold : st.containers.find? (fun a => a.id == freshId st) = none := by
    apply List.find?_eq_none.mpr
    intro a ha
    simp [hfresh a ha]
  simp only [startService, hpull, habsent, createContainer, startAndPoll,
    startContainer, inspectContainerId, List.map_append, hmapold,
    List.map_cons, List.map_nil, beq_self_eq_true, if_true,
    find?_append_none _ _ _ hfindold, List.find?_cons]
  simp [startedContainer, startedState]

/-- Claim C4: with the image present and no container of the expected
versioned name, `StartIfNotRunning` creates and starts exactly one
container (the old list is preserved, the started container appended)
reporting changed=true; called again on the resulting state with the
unchanged ServiceConfig it creates nothing, returning the same state
with changed=false. -/
theorem startIfNotRunning_idempotent (A : Option AuthFile) (D : AuthFile)
    (R : List RemoteRepo) (O : List ServiceConfig) (H : String) (now : Int)
    (st : DockerState) (cfg : ServiceConfig)
    (himg : cfg.version ∈ st.images)
    (habsent : inspectContainer st cfg.containerName = none)
    (hfresh : ∀ c ∈ st.containers, c.id ≠ freshId st) :
    StartIfNotRunning A D R O H now st cfg =
      .ok (true, startedContainer st cfg O H now, startedState st cfg O H now) ∧
    (startedState st cfg O H now).containers =
      st.containers ++ [startedContainer st cfg O H now] ∧
    primaryName (startedContainer st cfg O H now) = "/" ++ cfg.containerName ∧
    (startedContainer st cfg O H now).running = true ∧
    StartIfNotRunning A D R O H now (startedState st cfg O H now) cfg =
      .ok (false, startedContainer st cfg O H now, startedState st cfg O H now) := by
  have hsvc := startService_creates A D R O H now st cfg himg habsent hfresh
  refine ⟨?_, rfl, rfl, rfl, ?_⟩
  · simp only [StartIfNotRunning, habsent, hsvc]
  · have hfind : inspectContainer (startedState st cfg O H now) cfg.containerName =
        some (startedContainer st cfg O H now) := by
      unfold inspectContainer at habsent ⊢
      show ((st.containers ++ [startedContainer st cfg O H now]).find? _) = _
      rw [find?_append_none _ _ _ habsent, List.find?_cons]
      have : (primaryName (startedContainer st cfg O H now) ==
          "/" ++ cfg.containerName) = true := by
        simp [startedContainer, primaryName]
      rw [this]
    have hc1 : (cfg.containerName ==
        primaryName (startedContainer st cfg O H now)) = false := by
      show (cfg.containerName == "/" ++ cfg.containerName) = false
      exact beq_slash_append _
    have hcn : chopSlash (primaryName (startedContainer st cfg O H now)) =
        cfg.containerName := by
      show chopSlash ("/" ++ cfg.containerName) = cfg.containerName
      exact chopSlash_slash _
    simp only [StartIfNotRunning, hfind, hcn, hc1, Bool.and_false,
      Bool.false_eq_true, if_false, bne_self_eq_false]

/-- Witness for claim C4 at an engine whose image store holds the
version and which has no containers. -/
theorem startIfNotRunning_idempotent_witness :
    StartIfNotRunning none [] [] [] "10.0.0.1" 50
        ⟨[], ["example.com/web:2"], 0⟩
        { name := "web", version := "example.com/web:2", versionId := 2,
          envVars := [], ports := [] } =
      .ok (true,
        startedContainer ⟨[], ["example.com/web:2"], 0⟩
          { name := "web", version := "example.com/web:2", versionId := 2,
            envVars := [], ports := [] } [] "10.0.0.1" 50,
        startedState ⟨[], ["example.com/web:2"], 0⟩
          { name := "web", version := "example.com/web:2", versionId := 2,
            envVars := [], ports := [] } [] "10.0.0.1" 50) ∧
    (startedState ⟨[], ["example.com/web:2"], 0⟩
        { name := "web", version := "example.com/web:2", versionId := 2,
          envVars := [], ports := [] } [] "10.0.0.1" 50).containers =
      (⟨[], ["example.com/web:2"], 0⟩ : DockerState).containers ++
        [startedContainer ⟨[], ["example.com/web:2"], 0⟩
          { name := "web", version := "example.com/web:2", versionId := 2,
            envVars := [], ports := [] } [] "10.0.0.1" 50] ∧
    primaryName (startedContainer ⟨[], ["example.com/web:2"], 0⟩
        { name := "web", version := "example.com/web:2", versionId := 2,
          envVars := [], ports := [] } [] "10.0.0.1" 50) =
      "/" ++ ({ name := "web", version := "example.com/web:2", versionId := 2,
                envVars := [], ports := [] } : ServiceConfig).containerName ∧
    (startedContainer ⟨[], ["example.com/web:2"], 0⟩
        { name := "web", version := "example.com/web:2", versionId := 2,
          envVars := [], ports := [] } [] "10.0.0.1" 50).running = true ∧
    StartIfNotRunning none [] [] [] "10.0.0.1" 50
        (startedState ⟨[], ["example.com/web:2"], 0⟩
          { name := "web", version := "example.com/web:2", versionId := 2,
            envVars := [], ports := [] } [] "10.0.0.1" 50)
        { name := "web", version := "example.com/web:2", versionId := 2,
          envVars := [], ports := [] } =
      .ok (false,
        startedContainer ⟨[], ["example.com/web:2"], 0⟩
          { name := "web", version := "example.com/web:2", versionId := 2,
            envVars := [], ports := [] } [] "10.0.0.1" 50,
        startedState ⟨[], ["example.com/web:2"], 0⟩
          { name := "web", version := "example.com/web:2", versionId := 2,
            envVars := [], ports := [] } [] "10.0.0.1" 50) :=
  startIfNotRunning_idempotent none [] [] [] "10.0.0.1" 50
    ⟨[], ["example.com/web:2"], 0⟩
    { name := "web", version := "example.com/web:2", versionId := 2,
      envVars := [], ports := [] }
    (by decide) (by decide) (by decide)

/-- Claim C5: with a running container named for version v1 and a
ServiceConfig now at version v2 (the image present, no v2-named
container yet), `StartIfNotRunning` creates and starts a container named
for v2 and reports changed=true, while the v1 container record is left
in the engine state exactly as it was — neither stopped nor removed. -/
theorem startIfNotRunning_version_upgrade (A : Option AuthFile) (D : AuthFile)
    (R : List RemoteRepo) (O : List ServiceConfig) (H : String) (now : Int)
    (st : DockerState) (cfg1 cfg2 : ServiceConfig) (v1c : DockerContainer)
    (hv1mem : v1c ∈ st.containers)
    (hv1name : primaryName v1c = "/" ++ cfg1.containerName)
    (hv1run : v1c.running = true)
    (hdiff : cfg1.containerName ≠ cfg2.containerName)
    (himg : cfg2.version ∈ st.images)
    (habsent : inspectContainer st cfg2.containerName = none)
    (hfresh : ∀ c ∈ st.containers, c.id ≠ freshId st) :
    StartIfNotRunning A D R O H now st cfg2 =
      .ok (true, startedContainer st cfg2 O H now, startedState st cfg2 O H now) ∧
    primaryName (startedContainer st cfg2 O H now) = "/" ++ cfg2.containerName ∧
    (startedContainer st cfg2 O H now).running = true ∧
    v1c ∈ (startedState st cfg2 O H now).containers ∧
    v1c.running = true := by
  have hsvc := startService_creates A D R O H now st cfg2 himg habsent hfresh
  refine ⟨?_, rfl, rfl, ?_, hv1run⟩
  · simp only [StartIfNotRunning, habsent, hsvc]
  · exact List.mem_append_left _ hv1mem

/-- Witness for claim C5: a v1 container running while the config moved
to v2. -/
theorem startIfNotRunning_version_upgrade_witness :
    StartIfNotRunning none [] [] [] "10.0.0.1" 50
        ⟨[{ id := "cidold", names := ["/web_1"], created := 0, running := true,
            config := { image := "example.com/web:1", env := [] },
            networkSettings := { ipAddress := "172.17.0.2", ports := [] },
            stopBehavior := .ok }], ["example.com/web:2"], 7⟩
        { name := "web", version := "example.com/web:2", versionId := 2,
          envVars := [], ports := [] } =
      .ok (true,
        startedContainer
          ⟨[{ id := "cidold", names := ["/web_1"], created := 0, running := true,
              config := { image := "example.com/web:1", env := [] },
              networkSettings := { ipAddress := "172.17.0.2", ports := [] },
              stopBehavior := .ok }], ["example.com/web:2"], 7⟩
          { name := "web", version := "example.com/web:2", versionId := 2,
            envVars := [], ports := [] } [] "10.0.0.1" 50,
        startedState
          ⟨[{ id := "cidold", names := ["/web_1"], created := 0, running := true,
              config := { image := "example.com/web:1", env := [] },
              networkSettings := { ipAddress := "172.17.0.2", ports := [] },
              stopBehavior := .ok }], ["example.com/web:2"], 7⟩
          { name := "web", version := "example.com/web:2", versionId := 2,
            envVars := [], ports := [] } [] "10.0.0.1" 50) ∧
    primaryName (startedContainer
        ⟨[{ id := "cidold", names := ["/web_1"], created := 0, running := true,
            config := { image := "example.com/web:1", env := [] },
            networkSettings := { ipAddress := "172.17.0.2", ports := [] },
            stopBehavior := .ok }], ["example.com/web:2"], 7⟩
        { name := "web", version := "example.com/web:2", versionId := 2,
          envVars := [], ports := [] } [] "10.0.0.1" 50) =
      "/" ++ ({ name := "web", version := "example.com/web:2", versionId := 2,
                envVars := [], ports := [] } : ServiceConfig).containerName ∧
    (startedContainer
        ⟨[{ id := "cidold", names := ["/web_1"], created := 0, running := true,
            config := { image := "example.com/web:1", env := [] },
            networkSettings := { ipAddress := "172.17.0.2", ports := [] },
            stopBehavior := .ok }], ["example.com/web:2"], 7⟩
        { name := "web", version := "example.com/web:2", versionId := 2,
          envVars := [], ports := [] } [] "10.0.0.1" 50).running = true ∧
    ({ id := "cidold", names := ["/web_1"], created := 0, running := true,
       config := { image := "example.com/web:1", env := [] },
       networkSettings := { ipAddress := "172.17.0.2", ports := [] },
       stopBehavior := .ok } : DockerContainer) ∈
      (startedState
        ⟨[{ id := "cidold", names := ["/web_1"], created := 0, running := true,
            config := { image := "example.com/web:1", env := [] },
            networkSettings := { ipAddress := "172.17.0.2", ports := [] },
            stopBehavior := .ok }], ["example.com/web:2"], 7⟩
        { name := "web", version := "example.com/web:2", versionId := 2,
          envVars := [], ports := [] } [] "10.0.0.1" 50).containers ∧
    ({ id := "cidold", names := ["/web_1"], created := 0, running := true,
       config := { image := "example.com/web:1", env := [] },
       networkSettings := { ipAddress := "172.17.0.2", ports := [] },
       stopBehavior := .ok } : DockerContainer).running = true :=
  startIfNotRunning_version_upgrade none [] [] [] "10.0.0.1" 50
    ⟨[{ id := "cidold", names := ["/web_1"], created := 0, running := true,
        config := { image := "example.com/web:1", env := [] },
        networkSettings := { ipAddress := "172.17.0.2", ports := [] },
        stopBehavior := .ok }], ["example.com/web:2"], 7⟩
    { name := "web", version := "example.com/web:1", versionId := 1,
      envVars := [], ports := [] }
    { name := "web", version := "example.com/web:2", versionId := 2,
      envVars := [], ports := [] }
    { id := "cidold", names := ["/web_1"], created := 0, running := true,
      config := { image := "example.com/web:1", env := [] },
      networkSettings := { ipAddress := "172.17.0.2", ports := [] },
      stopBehavior := .ok }
    (by decide) (by decide) (by decide) (by decide) (by decide) (by decide)
    (by decide)

/-! ### Claim C6 -/

theorem stopOutcomeFor_mem (st : DockerState) (c : DockerContainer)
    (hmem : c ∈ st.containers)
    (hnd : (st.containers.map (fun x => x.id)).Nodup) :
    stopOutcomeFor st c.id = c.stopBehavior := by
  unfold stopOutcomeFor inspectContainerId
  cases hf : st.containers.find? (fun x => x.id == c.id) with
  | none =>
    have := List.find?_eq_none.mp hf c hmem
    simp at this
  | some c' =>
    have hc'mem := List.mem_of_find?_eq_some hf
    have hc'p := List.find?_some hf
    have heq : c' = c :=
      List.inj_on_of_nodup_map hnd hc'mem hmem (by simpa using hc'p)
    rw [heq]

/-- Invariant carried through a `StopAllButLatest` run started from
engine state `st0` and blacklist `bl0`: containers are only ever
removed; initially blacklisted ids stay blacklisted, are never the
target of a stop attempt and their containers are never removed; and a
container that hangs on stop is never removed, its id entering the
blacklist as soon as a stop on it is attempted. -/
def ReapInv (st0 : DockerState) (bl0 : List String) (r : ReapState) : Prop :=
  r.st.containers.Sublist st0.containers ∧
  (∀ id ∈ bl0, id ∈ r.bl) ∧
  (∀ id ∈ bl0, id ∉ r.attempts) ∧
  (∀ id ∈ bl0, ∀ c ∈ st0.containers, c.id = id → c ∈ r.st.containers) ∧
  (∀ c ∈ st0.containers, c.stopBehavior = .timeout →
    c ∈ r.st.containers ∧ (c.id ∈ r.attempts → c.id ∈ r.bl))

theorem reapContainer_inv (st0 : DockerState) (bl0 : List String)
    (hnd : (st0.containers.map (fun x => x.id)).Nodup)
    (cfg : ServiceConfig) (reg repo latestId : String) (cut now : Int)
    (r : ReapState) (c : DockerContainer) (hc : c ∈ st0.containers)
    (hinv : ReapInv st0 bl0 r) :
    ReapInv st0 bl0 (reapContainer cfg reg repo latestId cut now r c) := by
  obtain ⟨hsub, hbl, hatt, hblc, htime⟩ := hinv
  have hndr : (r.st.containers.map (fun x => x.id)).Nodup :=
    hnd.sublist (hsub.map _)
  unfold reapContainer
  by_cases h1 : c.names.isEmpty = true
  · rw [if_pos h1]; exact ⟨hsub, hbl, hatt, hblc, htime⟩
  rw [if_neg h1]
  by_cases h2 : (!(cfg.isContainerVersion (chopSlash (c.names.headD "")))) = true
  · rw [if_pos h2]; exact ⟨hsub, hbl, hatt, hblc, htime⟩
  rw [if_neg h2]
  by_cases h3 : ((splitDockerImage c.config.image).1 == reg &&
      (splitDockerImage c.config.image).2.1 == repo &&
      c.id != latestId && decide (c.created < now - cut)) = true
  case neg => rw [if_neg h3]; exact ⟨hsub, hbl, hatt, hblc, htime⟩
  case pos =>
    rw [if_pos h3]
    by_cases h4 : c.id ∈ r.bl
    · rw [if_pos h4]; exact ⟨hsub, hbl, hatt, hblc, htime⟩
    rw [if_neg h4]
    have hnotbl := h4
    · have hcid_nbl0 : c.id ∉ bl0 := fun hmem => hnotbl (hbl _ hmem)
      have hattid : ∀ id ∈ bl0, id ∉ r.attempts ++ [c.id] := by
        intro id hid hmem
        rcases List.mem_append.mp hmem with hm | hm
        · exact hatt id hid hm
        · rw [List.mem_singleton.mp hm] at hid
          exact hcid_nbl0 hid
      cases hout : stopOutcomeFor r.st c.id with
      | timeout =>
        refine ⟨hsub, ?_, hattid, hblc, ?_⟩
        · intro id hid
          exact List.mem_append_left _ (hbl id hid)
        · intro c' hc' ht
          refine ⟨(htime c' hc' ht).1, ?_⟩
          intro hmem
          rcases List.mem_append.mp hmem with hm | hm
          · exact List.mem_append_left _ ((htime c' hc' ht).2 hm)
          · exact List.mem_append_right _ hm
      | failed =>
        refine ⟨hsub, hbl, hattid, hblc, ?_⟩
        intro c' hc' ht
        refine ⟨(htime c' hc' ht).1, ?_⟩
        intro hmem
        rcases List.mem_append.mp hmem with hm | hm
        · exact (htime c' hc' ht).2 hm
        · exfalso
          have hideq : c'.id = c.id := List.mem_singleton.mp hm
          have hceq : c' = c := List.inj_on_of_nodup_map hnd hc' hc hideq
          subst hceq
          rw [stopOutcomeFor_mem r.st c' (htime c' hc' ht).1 hndr, ht] at hout
          exact absurd hout (by simp)
      | ok =>
        have hcneq : ∀ c' ∈ st0.containers, c'.stopBehavior = .timeout →
            c'.id ≠ c.id := by
          intro c' hc' ht hideq
          have hceq : c' = c := List.inj_on_of_nodup_map hnd hc' hc hideq
          subst hceq
          rw [stopOutcomeFor_mem r.st c' (htime c' hc' ht).1 hndr, ht] at hout
          exact absurd hout (by simp)
        refine ⟨?_, hbl, hattid, ?_, ?_⟩
        · exact (List.filter_sublist _).trans hsub
        · intro id hid c' hc' hideq
          have hin : c' ∈ r.st.containers := hblc id hid c' hc' hideq
          have hne : (c'.id != c.id) = true := by
            have : c'.id ≠ c.id := by
              intro hcc
              exact hnotbl (hcc ▸ hideq ▸ hbl id hid)
            simpa using this
          exact List.mem_filter.mpr ⟨hin, hne⟩
        · intro c' hc' ht
          have hne : (c'.id != c.id) = true := by
            simpa using hcneq c' hc' ht
          refine ⟨List.mem_filter.mpr ⟨(htime c' hc' ht).1, hne⟩, ?_⟩
          intro hmem
          rcases List.mem_append.mp hmem with hm | hm
          · exact (htime c' hc' ht).2 hm
          · exact absurd (List.mem_singleton.mp hm) (hcneq c' hc' ht)

theorem foldl_reapContainer_inv (st0 : DockerState) (bl0 : List String)
    (hnd : (st0.containers.map (fun x => x.id)).Nodup)
    (cfg : ServiceConfig) (reg repo latestId : String) (cut now : Int)
    (snapshot : List DockerContainer)
    (hsnap : ∀ c ∈ snapshot, c ∈ st0.containers) :
    ∀ r, ReapInv st0 bl0 r →
    ReapInv st0 bl0
      (snapshot.foldl (reapContainer cfg reg repo latestId cut now) r) := by
  induction snapshot with
  | nil => intro r h; exact h
  | cons c rest ih =>
    intro r h
    exact ih (fun x hx => hsnap x (List.mem_cons_of_mem _ hx)) _
      (reapContainer_inv st0 bl0 hnd cfg reg repo latestId cut now r c
        (hsnap c (List.mem_cons_self c rest)) h)

theorem reapConfig_inv (st0 : DockerState) (bl0 : List String)
    (hnd : (st0.containers.map (fun x => x.id)).Nodup)
    (snapshot : List DockerContainer)
    (hsnap : ∀ c ∈ snapshot, c ∈ st0.containers) (cut now : Int)
    (r : ReapState) (cfg : ServiceConfig) (hinv : ReapInv st0 bl0 r) :
    ReapInv st0 bl0 (reapConfig snapshot cut now r cfg) := by
  simp only [reapConfig]
  cases hins : inspectContainer r.st cfg.containerName with
  | none => exact hinv
  | some latest =>
    exact foldl_reapContainer_inv st0 bl0 hnd cfg _ _ latest.id cut now
      snapshot hsnap r hinv

theorem foldl_reapConfig_inv (st0 : DockerState) (bl0 : List String)
    (hnd : (st0.containers.map (fun x => x.id)).Nodup)
    (snapshot : List DockerContainer)
    (hsnap : ∀ c ∈ snapshot, c ∈ st0.containers) (cut now : Int)
    (configs : List ServiceConfig) :
    ∀ r, ReapInv st0 bl0 r →
    ReapInv st0 bl0 (configs.foldl (reapConfig snapshot cut now) r) := by
  induction configs with
  | nil => intro r h; exact h
  | cons cfg rest ih =>
    intro r h
    exact ih _ (reapConfig_inv st0 bl0 hnd snapshot hsnap cut now r cfg h)

/-- Claim C6: over a `StopAllButLatest` run (container ids being unique,
as docker guarantees): every initially blacklisted id is never the
target of a stop attempt, remains blacklisted, and its container is
never removed — so once blacklisted a container is skipped on every
subsequent call, eligible or not; and every container whose stop call
times out is left in place (never removed) with its id entering the
blacklist whenever a stop on it was attempted. -/
theorem stopAllButLatest_blacklists_zombies (configs : List ServiceConfig)
    (cut now : Int) (st0 : DockerState) (bl0 : List String)
    (hnd : (st0.containers.map (fun x => x.id)).Nodup) :
    (∀ id ∈ bl0,
      id ∉ (StopAllButLatest configs cut now st0 bl0).attempts ∧
      id ∈ (StopAllButLatest configs cut now st0 bl0).bl ∧
      ∀ c ∈ st0.containers, c.id = id →
        c ∈ (StopAllButLatest configs cut now st0 bl0).st.containers) ∧
    (∀ c ∈ st0.containers, c.stopBehavior = .timeout →
      c ∈ (StopAllButLatest configs cut now st0 bl0).st.containers ∧
      (c.id ∈ (StopAllButLatest configs cut now st0 bl0).attempts →
        c.id ∈ (StopAllButLatest configs cut now st0 bl0).bl)) := by
  have hinit : ReapInv st0 bl0 { st := st0, bl := bl0, attempts := [] } :=
    ⟨List.Sublist.refl _, fun id h => h, fun id _ h => by simp at h,
     fun _ _ c hc _ => hc, fun c hc _ => ⟨hc, fun h => by simp at h⟩⟩
  have h := foldl_reapConfig_inv st0 bl0 hnd
    (st0.containers.filter (fun c => c.running))
    (fun c hc => List.mem_of_mem_filter hc) cut now configs
    { st := st0, bl := bl0, attempts := [] } hinit
  obtain ⟨_, hbl, hatt, hblc, htime⟩ := h
  exact ⟨fun id hid => ⟨hatt id hid, hbl id hid, hblc id hid⟩, htime⟩

/-- Witness for claim C6: a latest `web_2` container, a superseded
`web_1` zombie whose stop hangs, and an already-blacklisted `web_0`
that matches every other eligibility criterion. -/
theorem stopAllButLatest_blacklists_zombies_witness :
    "cidblk" ∉ (StopAllButLatest
      [{ name := "web", version := "example.com/web:2", versionId := 2,
         envVars := [], ports := [] }] 60 1000
      ⟨[{ id := "cidnew", names := ["/web_2"], created := 990, running := true,
          config := { image := "example.com/web:2", env := [] },
          networkSettings := { ipAddress := "", ports := [] },
          stopBehavior := .ok },
        { id := "cidold", names := ["/web_1"], created := 0, running := true,
          config := { image := "example.com/web:1", env := [] },
          networkSettings := { ipAddress := "", ports := [] },
          stopBehavior := .timeout },
        { id := "cidblk", names := ["/web_0"], created := 0, running := true,
          config := { image := "example.com/web:0", env := [] },
          networkSettings := { ipAddress := "", ports := [] },
          stopBehavior := .timeout }], [], 0⟩ ["cidblk"]).attempts ∧
    "cidblk" ∈ (StopAllButLatest
      [{ name := "web", version := "example.com/web:2", versionId := 2,
         envVars := [], ports := [] }] 60 1000
      ⟨[{ id := "cidnew", names := ["/web_2"], created := 990, running := true,
          config := { image := "example.com/web:2", env := [] },
          networkSettings := { ipAddress := "", ports := [] },
          stopBehavior := .ok },
        { id := "cidold", names := ["/web_1"], created := 0, running := true,
          config := { image := "example.com/web:1", env := [] },
          networkSettings := { ipAddress := "", ports := [] },
          stopBehavior := .timeout },
        { id := "cidblk", names := ["/web_0"], created := 0, running := true,
          config := { image := "example.com/web:0", env := [] },
          networkSettings := { ipAddress := "", ports := [] },
          stopBehavior := .timeout }], [], 0⟩ ["cidblk"]).bl ∧
    ({ id := "cidblk", names := ["/web_0"], created := 0, running := true,
       config := { image := "example.com/web:0", env := [] },
       networkSettings := { ipAddress := "", ports := [] },
       stopBehavior := .timeout } : DockerContainer) ∈
      (StopAllButLatest
        [{ name := "web", version := "example.com/web:2", versionId := 2,
           envVars := [], ports := [] }] 60 1000
        ⟨[{ id := "cidnew", names := ["/web_2"], created := 990, running := true,
            config := { image := "example.com/web:2", env := [] },
            networkSettings := { ipAddress := "", ports := [] },
            stopBehavior := .ok },
          { id := "cidold", names := ["/web_1"], created := 0, running := true,
            config := { image := "example.com/web:1", env := [] },
            networkSettings := { ipAddress := "", ports := [] },
            stopBehavior := .timeout },
          { id := "cidblk", names := ["/web_0"], created := 0, running := true,
            config := { image := "example.com/web:0", env := [] },
            networkSettings := { ipAddress := "", ports := [] },
            stopBehavior := .timeout }], [], 0⟩ ["cidblk"]).st.containers ∧
    ({ id := "cidold", names := ["/web_1"], created := 0, running := true,
       config := { image := "example.com/web:1", env := [] },
       networkSettings := { ipAddress := "", ports := [] },
       stopBehavior := .timeout } : DockerContainer) ∈
      (StopAllButLatest
        [{ name := "web", version := "example.com/web:2", versionId := 2,
           envVars := [], ports := [] }] 60 1000
        ⟨[{ id := "cidnew", names := ["/web_2"], created := 990, running := true,
            config := { image := "example.com/web:2", env := [] },
            networkSettings := { ipAddress := "", ports := [] },
            stopBehavior := .ok },
          { id := "cidold", names := ["/web_1"], created := 0, running := true,
            config := { image := "example.com/web:1", env := [] },
            networkSettings := { ipAddress := "", ports := [] },
            stopBehavior := .timeout },
          { id := "cidblk", names := ["/web_0"], created := 0, running := true,
            config := { image := "example.com/web:0", env := [] },
            networkSettings := { ipAddress := "", ports := [] },
            stopBehavior := .timeout }], [], 0⟩ ["cidblk"]).st.containers ∧
    "cidold" ∈ (StopAllButLatest
      [{ name := "web", version := "example.com/web:2", versionId := 2,
         envVars := [], ports := [] }] 60 1000
      ⟨[{ id := "cidnew", names := ["/web_2"], created := 990, running := true,
          config := { image := "example.com/web:2", env := [] },
          networkSettings := { ipAddress := "", ports := [] },
          stopBehavior := .ok },
        { id := "cidold", names := ["/web_1"], created := 0, running := true,
          config := { image := "example.com/web:1", env := [] },
          networkSettings := { ipAddress := "", ports := [] },
          stopBehavior := .timeout },
        { id := "cidblk", names := ["/web_0"], created := 0, running := true,
          config := { image := "example.com/web:0", env := [] },
          networkSettings := { ipAddress := "", ports := [] },
          stopBehavior := .timeout }], [], 0⟩ ["cidblk"]).bl := by
  have h := stopAllButLatest_blacklists_zombies
    [{ name := "web", version := "example.com/web:2", versionId := 2,
       envVars := [], ports := [] }] 60 1000
    ⟨[{ id := "cidnew", names := ["/web_2"], created := 990, running := true,
        config := { image := "example.com/web:2", env := [] },
        networkSettings := { ipAddress := "", ports := [] },
        stopBehavior := .ok },
      { id := "cidold", names := ["/web_1"], created := 0, running := true,
        config := { image := "example.com/web:1", env := [] },
        networkSettings := { ipAddress := "", ports := [] },
        stopBehavior := .timeout },
      { id := "cidblk", names := ["/web_0"], created := 0, running := true,
        config := { image := "example.com/web:0", env := [] },
        networkSettings := { ipAddress := "", ports := [] },
        stopBehavior := .timeout }], [], 0⟩ ["cidblk"] (by decide)
  have ha := h.1 "cidblk" (by decide)
  have hz := h.2
    { id := "cidold", names := ["/web_1"], created := 0, running := true,
      config := { image := "example.com/web:1", env := [] },
      networkSettings := { ipAddress := "", ports := [] },
      stopBehavior := .timeout } (by decide) rfl
  exact ⟨ha.1, ha.2.1,
    ha.2.2
      { id := "cidblk", names := ["/web_0"], created := 0, running := true,
        config := { image := "example.com/web:0", env := [] },
        networkSettings := { ipAddress := "", ports := [] },
        stopBehavior := .timeout } (by decide) rfl,
    hz.1, hz.2 (by decide)⟩

/-! ### Claim C8 -/

/-- Claim C8: `PullImage` first checks local presence and returns the
local image without issuing any pull; only for an absent image does it
split the version into (registry, repository) — pulling
`registry/repository` with credentials resolved from the operator's
stored auth config for a non-default registry, and the bare repository
with empty credentials for the default one — and a failing engine pull
is reported to the caller as that same error, with no image. -/
theorem pullImage_local_first_and_split (D : AuthFile) (R : List RemoteRepo)
    (st : DockerState) (version reg repo tag : String)
    (hsplit : splitDockerImage version = (reg, repo, tag)) :
    (version ∈ st.images →
      PullImage none D R st version =
        { image := some version, st := st, calls := [], err := none }) ∧
    (version ∉ st.images → reg ≠ "" →
      (PullImage none D R st version).calls =
        [{ repository := reg ++ "/" ++ repo, registryHost := reg,
           auth := resolveAuthConfig D reg }]) ∧
    (version ∉ st.images → reg = "" →
      (PullImage none D R st version).calls =
        [{ repository := repo, registryHost := "", auth := emptyCreds }]) ∧
    (∀ e, version ∉ st.images →
      (enginePull R st (pullCallFor none D version).repository
        (pullCallFor none D version).registryHost).2 = some e →
      (PullImage none D R st version).err = some e ∧
      (PullImage none D R st version).image = none) := by
  refine ⟨?_, ?_, ?_, ?_⟩
  · intro hmem
    simp [PullImage, inspectImage, hmem]
  · intro habs hreg
    have hcall : pullCallFor none D version =
        { repository := reg ++ "/" ++ repo, registryHost := reg,
          auth := resolveAuthConfig D reg } := by
      simp [pullCallFor, hsplit, hreg]
    simp only [PullImage, inspectImage, if_neg habs, hcall]
    cases hp : enginePull R st (reg ++ "/" ++ repo) reg with
    | mk st' oerr => cases oerr <;> rfl
  · intro habs hreg
    have hcall : pullCallFor none D version =
        { repository := repo, registryHost := "", auth := emptyCreds } := by
      simp [pullCallFor, hsplit, hreg]
    simp only [PullImage, inspectImage, if_neg habs, hcall]
    cases hp : enginePull R st repo "" with
    | mk st' oerr => cases oerr <;> rfl
  · intro e habs herr
    simp only [PullImage, inspectImage, if_neg habs]
    cases hp : enginePull R st (pullCallFor none D version).repository
        (pullCallFor none D version).registryHost with
    | mk st' oerr =>
      rw [hp] at herr
      cases oerr with
      | none => simp at herr
      | some e' =>
        have : e' = e := by simpa using herr
        subst this
        exact ⟨rfl, rfl⟩

/-- Witness for claim C8: a locally present image returned without
pulling; an absent non-default-registry image pulled with resolved
credentials; an absent default-registry image pulled bare; and a pull of
an unknown repository failing with the engine's error. -/
theorem pullImage_local_first_and_split_witness :
    PullImage none [("reg.example.com", ⟨"bob", "pw", "bob@example.com"⟩)] []
        ⟨[], ["app:1"], 0⟩ "app:1" =
      { image := some "app:1", st := ⟨[], ["app:1"], 0⟩, calls := [],
        err := none } ∧
    (PullImage none [("reg.example.com", ⟨"bob", "pw", "bob@example.com"⟩)] []
        ⟨[], ["app:1"], 0⟩ "reg.example.com/app:2").calls =
      [{ repository := "reg.example.com" ++ "/" ++ "app",
         registryHost := "reg.example.com",
         auth := resolveAuthConfig
           [("reg.example.com", ⟨"bob", "pw", "bob@example.com"⟩)]
           "reg.example.com" }] ∧
    (PullImage none [("reg.example.com", ⟨"bob", "pw", "bob@example.com"⟩)] []
        ⟨[], ["app:1"], 0⟩ "app:2").calls =
      [{ repository := "app", registryHost := "", auth := emptyCreds }] ∧
    (PullImage none [("reg.example.com", ⟨"bob", "pw", "bob@example.com"⟩)] []
        ⟨[], ["app:1"], 0⟩ "reg.example.com/app:2").err =
      some ("Tag not found in repository " ++ "reg.example.com" ++ "/" ++ "app") ∧
    (PullImage none [("reg.example.com", ⟨"bob", "pw", "bob@example.com"⟩)] []
        ⟨[], ["app:1"], 0⟩ "reg.example.com/app:2").image = none := by
  have h1 := pullImage_local_first_and_split
    [("reg.example.com", ⟨"bob", "pw", "bob@example.com"⟩)] []
    ⟨[], ["app:1"], 0⟩ "app:1" "" "app" "1" (by decide)
  have h2 := pullImage_local_first_and_split
    [("reg.example.com", ⟨"bob", "pw", "bob@example.com"⟩)] []
    ⟨[], ["app:1"], 0⟩ "reg.example.com/app:2" "reg.example.com" "app" "2"
    (by decide)
  have h3 := pullImage_local_first_and_split
    [("reg.example.com", ⟨"bob", "pw", "bob@example.com"⟩)] []
    ⟨[], ["app:1"], 0⟩ "app:2" "" "app" "2" (by decide)
  have h4 := h2.2.2.2
    ("Tag not found in repository " ++ "reg.example.com" ++ "/" ++ "app")
    (by decide) (by decide)
  exact ⟨h1.1 (by decide), h2.2.1 (by decide) (by decide),
    h3.2.2.1 (by decide) (by decide), h4.1, h4.2⟩

/-! ### Claim C10 -/

/-- Claim C10: with `GALAXY_APP` set in the container's environment,
`RegisterService` succeeds even when no exposed port carries a binding,
the four IP/port fields of the returned registration then being empty
strings; when some exposed port does carry a binding (well-formed, i.e.
with a non-empty host port and port number, as docker produces), the
four fields are taken from the first such port: the host IP, the
binding's host port, the container's IP and the port's number. -/
theorem registerService_port_fields (env pool hostIP : String) (ttl : Nat)
    (now : Int) (b : Galaxy.Backend) (c : DockerContainer)
    (hname : envGet (envFor c.config.env) "GALAXY_APP" ≠ "") :
    (firstPortBinding c.networkSettings.ports = none →
      (RegisterService env pool hostIP ttl now b c).toOption.map
        (fun p => (p.1.externalIp, p.1.externalPort, p.1.internalIp,
          p.1.internalPort)) =
        some ("", "", "", "")) ∧
    (∀ k bind, firstPortBinding c.networkSettings.ports = some (k, bind) →
      bind.hostPort ≠ "" → portNumber k ≠ "" →
      (RegisterService env pool hostIP ttl now b c).toOption.map
        (fun p => (p.1.externalIp, p.1.externalPort, p.1.internalIp,
          p.1.internalPort)) =
        some (hostIP, bind.hostPort, c.networkSettings.ipAddress,
          portNumber k)) := by
  have hnb : (envGet (envFor c.config.env) "GALAXY_APP" == "") = false := by
    simp [hname]
  constructor
  · intro hfpb
    simp only [RegisterService, hnb, Bool.false_eq_true, if_false,
      newServiceRegistration, hfpb, bne_self_eq_false, Bool.false_and,
      Bool.and_self]
    split_ifs <;> rfl
  · intro k bind hfpb hhp hpn
    have hb1 : (bind.hostPort != "") = true := by simpa using hhp
    have hb2 : (portNumber k != "") = true := by simpa using hpn
    simp only [RegisterService, hnb, Bool.false_eq_true, if_false,
      newServiceRegistration, hfpb, hb1, hb2, Bool.and_self, if_true]
    split_ifs <;> rfl

/-- Witness for claim C10: one container exposing no bound port, one
exposing `8080/tcp` bound to host port `49153`. -/
theorem registerService_port_fields_witness :
    (RegisterService "prod" "web" "10.0.0.5" 60 100 ⟨[], [], []⟩
        { id := "cid111111111111", names := ["/web_2"], created := 5,
          running := true,
          config := { image := "example.com/web:2", env := ["GALAXY_APP=web"] },
          networkSettings := { ipAddress := "172.17.0.9", ports := [] },
          stopBehavior := .ok }).toOption.map
      (fun p => (p.1.externalIp, p.1.externalPort, p.1.internalIp,
        p.1.internalPort)) =
      some ("", "", "", "") ∧
    (RegisterService "prod" "web" "10.0.0.5" 60 100 ⟨[], [], []⟩
        { id := "cid222222222222", names := ["/web_2"], created := 5,
          running := true,
          config := { image := "example.com/web:2", env := ["GALAXY_APP=web"] },
          networkSettings :=
            { ipAddress := "172.17.0.9",
              ports := [("8080/tcp",
                [{ hostIp := "0.0.0.0", hostPort := "49153" }])] },
          stopBehavior := .ok }).toOption.map
      (fun p => (p.1.externalIp, p.1.externalPort, p.1.internalIp,
        p.1.internalPort)) =
      some ("10.0.0.5",
        ({ hostIp := "0.0.0.0", hostPort := "49153" } : PortBinding).hostPort,
        "172.17.0.9", portNumber "8080/tcp") := by
  have h1 := registerService_port_fields "prod" "web" "10.0.0.5" 60 100
    ⟨[], [], []⟩
    { id := "cid111111111111", names := ["/web_2"], created := 5,
      running := true,
      config := { image := "example.com/web:2", env := ["GALAXY_APP=web"] },
      networkSettings := { ipAddress := "172.17.0.9", ports := [] },
      stopBehavior := .ok } (by decide)
  have h2 := registerService_port_fields "prod" "web" "10.0.0.5" 60 100
    ⟨[], [], []⟩
    { id := "cid222222222222", names := ["/web_2"], created := 5,
      running := true,
      config := { image := "example.com/web:2", env := ["GALAXY_APP=web"] },
      networkSettings :=
        { ipAddress := "172.17.0.9",
          ports := [("8080/tcp",
            [{ hostIp := "0.0.0.0", hostPort := "49153" }])] },
      stopBehavior := .ok } (by decide)
  exact ⟨h1.1 (by decide),
    h2.2 "8080/tcp" { hostIp := "0.0.0.0", hostPort := "49153" }
      (by decide) (by decide) (by decide)⟩

end Galaxy
